import Mathlib

/-!
Verification of the CHIP-8 interpreter core (src/src/chip8.h, src/src/chip8.cpp).

Shallow embedding conventions:
* Machine integers are modelled as `Nat`.  Byte-typed (`std::uint8_t`) stores
  reduce the stored value `% 256`; 16-bit (`std::uint16_t`) stores reduce
  `% 65536`, mirroring the implicit conversions at the C++ call boundary.
  Fields that the C++ code keeps in byte/16-bit variables therefore always
  hold reduced values once written through the modelled operations; theorems
  about arbitrary states carry explicit byte-range hypotheses where the C++
  types guarantee a bound the model does not.
* The fixed C++ arrays (`memory_`, `registers_`, `stack_`, `frameBuffer_`,
  `keyboard_`) are modelled as total functions `Nat -> Nat`; every access the
  code performs is bounds-checked before indexing, so only the in-range part
  of each function is ever consulted.
* Bit operations on in-range values are rendered arithmetically where the two
  coincide: `opcode & 0x0FFF = opcode % 4096`, `(opcode & 0x0F00) >> 8 =
  opcode / 256 % 16`, `(opcode & 0x00F0) >> 4 = opcode / 16 % 16`,
  `opcode & 0x000F = opcode % 16`, `opcode & 0x00FF = opcode % 256`, and the
  `switch (opcode & 0xF000)` dispatch compares `opcode / 4096 % 16` with the
  sixteen family numbers.  These identities hold for every `Nat`.
  The big-endian fetch `(memory[pc] << 8) | memory[pc+1]` is rendered
  `memory pc * 256 + memory (pc+1)`, which is equal to it because memory
  cells are bytes (`< 256`).
* `std::cout`/`std::cerr` logging is pure I/O and is omitted; `loadRom` does
  file I/O and is outside the modelled surface.
* The random byte drawn by opcode `0xCXNN` is passed to `emulateCycle` as an
  explicit oracle argument `rnd` (the C++ draws it from a PRNG).
-/

/-- Error taxonomy of the interpreter, from `Chip8::ErrorCode` in chip8.h. -/
inductive ErrorCode where
  | None
  | StackOverflow
  | StackUnderflow
  | InvalidMemoryAccess
  | InvalidRegisterAccess
  | UnknownOpcode
  deriving DecidableEq, Repr

/-- Pointwise update of a `Nat`-indexed store (models `arr[i] = v`). -/
def updf (f : Nat → Nat) (i v : Nat) : Nat → Nat :=
  fun j => if j = i then v else f j

/-- Decimal rendering of a number, modelling `std::to_string`. -/
def decStr (n : Nat) : String := Nat.repr n

/-- One uppercase hexadecimal digit (0-15 to 0-9, A-F). -/
def hexDigitChar (digit : Nat) : Char :=
  if digit < 10 then Char.ofNat (48 + digit) else Char.ofNat (55 + digit)

/-- Accumulate the uppercase hex digits of `n` (most significant first). -/
def hexDigits : Nat → List Char → List Char
  | 0, acc => acc
  | n + 1, acc => hexDigits ((n + 1) / 16) (hexDigitChar ((n + 1) % 16) :: acc)
  decreasing_by exact Nat.div_lt_self (Nat.succ_pos n) (by omega)

/-- Model of `formatHex` in chip8.cpp: `"0x"` followed by the uppercase
hexadecimal digits of the value (`std::hex << std::uppercase`). -/
def formatHex (value : Nat) : String :=
  "0x" ++ (if value = 0 then ("0") else String.mk (hexDigits value []))

/-- The built-in font, `FONT_SET` in chip8.cpp (80 bytes, 16 glyphs). -/
def FONT_SET : List Nat :=
  [0xF0, 0x90, 0x90, 0x90, 0xF0,
   0x20, 0x60, 0x20, 0x20, 0x70,
   0xF0, 0x10, 0xF0, 0x80, 0xF0,
   0xF0, 0x10, 0xF0, 0x10, 0xF0,
   0x90, 0x90, 0xF0, 0x10, 0x10,
   0xF0, 0x80, 0xF0, 0x10, 0xF0,
   0xF0, 0x80, 0xF0, 0x90, 0xF0,
   0xF0, 0x10, 0x20, 0x40, 0x40,
   0xF0, 0x90, 0xF0, 0x90, 0xF0,
   0xF0, 0x90, 0xF0, 0x10, 0xF0,
   0xF0, 0x90, 0xF0, 0x90, 0x90,
   0xE0, 0x90, 0xE0, 0x90, 0xE0,
   0xF0, 0x80, 0x80, 0x80, 0xF0,
   0xE0, 0x90, 0x90, 0x90, 0xE0,
   0xF0, 0x80, 0xF0, 0x80, 0xF0,
   0xF0, 0x80, 0xF0, 0x80, 0x80]

/-- The machine state, from the private section of class `Chip8` (chip8.h). -/
structure Chip8 where
  memory : Nat → Nat
  registers : Nat → Nat
  stack : Nat → Nat
  frameBuffer : Nat → Nat
  keyboard : Nat → Nat
  indexRegister : Nat
  stackPointer : Nat
  delayTimer : Nat
  soundTimer : Nat
  programCounter : Nat
  opcode : Nat
  drawFlag : Bool
  lastError : ErrorCode
  lastErrorMessage : String

namespace Chip8

/-- `Chip8::MEMORY_SIZE` -/
def MEMORY_SIZE : Nat := 4096

/-- `Chip8::REGISTER_COUNT` -/
def REGISTER_COUNT : Nat := 16

/-- `Chip8::STACK_SIZE` -/
def STACK_SIZE : Nat := 16

/-- `Chip8::DISPLAY_WIDTH` -/
def DISPLAY_WIDTH : Nat := 64

/-- `Chip8::DISPLAY_HEIGHT` -/
def DISPLAY_HEIGHT : Nat := 32

/-- `Chip8::KEYBOARD_SIZE` -/
def KEYBOARD_SIZE : Nat := 16

/-- `Chip8::ROM_START_ADDRESS` -/
def ROM_START_ADDRESS : Nat := 0x200

/-- `Chip8::setError`: record an error kind and its message. -/
def setError (s : Chip8) (error : ErrorCode) (message : String) : Chip8 :=
  { s with lastError := error, lastErrorMessage := message }

/-- `Chip8::clearError`. -/
def clearError (s : Chip8) : Chip8 :=
  { s with lastError := ErrorCode.None, lastErrorMessage := "" }

/-- `Chip8::isValidMemoryAddress`. -/
def isValidMemoryAddress (address : Nat) : Prop := address < MEMORY_SIZE

instance (address : Nat) : Decidable (isValidMemoryAddress address) :=
  inferInstanceAs (Decidable (address < MEMORY_SIZE))

/-- `Chip8::isValidRegisterIndex`. -/
def isValidRegisterIndex (index : Nat) : Prop := index < REGISTER_COUNT

instance (index : Nat) : Decidable (isValidRegisterIndex index) :=
  inferInstanceAs (Decidable (index < REGISTER_COUNT))

/-- `Chip8::init`: the reset state (PC = 0x200, everything cleared, font
copied to the bottom of memory, error cleared). -/
def init : Chip8 where
  memory := fun a => if a < 80 then FONT_SET.getD a 0 else 0
  registers := fun _ => 0
  stack := fun _ => 0
  frameBuffer := fun _ => 0
  keyboard := fun _ => 0
  indexRegister := 0
  stackPointer := 0
  delayTimer := 0
  soundTimer := 0
  programCounter := ROM_START_ADDRESS
  opcode := 0
  drawFlag := false
  lastError := ErrorCode.None
  lastErrorMessage := ""

/-- `Chip8::setPixel` (chip8.cpp:179).  Note: no `clearError` on success. -/
def setPixel (s : Chip8) (x y value : Nat) : Chip8 :=
  if DISPLAY_WIDTH ≤ x ∨ DISPLAY_HEIGHT ≤ y then
    setError s ErrorCode.InvalidMemoryAccess
      ("Pixel coordinates out of bounds: (" ++ decStr x ++ ", " ++ decStr y ++ ")")
  else
    { s with frameBuffer := updf s.frameBuffer (y * DISPLAY_WIDTH + x) (value % 256) }

/-- `Chip8::getPixel` (chip8.cpp:189): const, returns 0 out of range. -/
def getPixel (s : Chip8) (x y : Nat) : Nat :=
  if DISPLAY_WIDTH ≤ x ∨ DISPLAY_HEIGHT ≤ y then 0
  else s.frameBuffer (y * DISPLAY_WIDTH + x)

/-- `Chip8::setKeyState` (chip8.cpp:196): out-of-range key records an
`InvalidRegisterAccess` error. -/
def setKeyState (s : Chip8) (key : Nat) (pressed : Bool) : Chip8 :=
  if KEYBOARD_SIZE ≤ key then
    setError s ErrorCode.InvalidRegisterAccess ("Invalid key index: " ++ decStr key)
  else
    { s with keyboard := updf s.keyboard key (if pressed then 1 else 0) }

/-- `Chip8::isKeyPressed` (chip8.cpp:204): const, false out of range. -/
def isKeyPressed (s : Chip8) (key : Nat) : Bool :=
  if KEYBOARD_SIZE ≤ key then false
  else s.keyboard key != 0

/-- `Chip8::setMemory` (chip8.cpp:212): bounds-checked write that clears the
error slot on success. -/
def setMemory (s : Chip8) (address value : Nat) : Chip8 :=
  if ¬ isValidMemoryAddress address then
    setError s ErrorCode.InvalidMemoryAccess ("Invalid memory address: " ++ formatHex address)
  else
    { clearError s with memory := updf s.memory address (value % 256) }

/-- `Chip8::setProgramCounter` (chip8.cpp:221).  Note: no `clearError` on
success. -/
def setProgramCounter (s : Chip8) (address : Nat) : Chip8 :=
  if ¬ isValidMemoryAddress address then
    setError s ErrorCode.InvalidMemoryAccess
      ("Invalid program counter address: " ++ decStr address)
  else
    { s with programCounter := address }

/-- `Chip8::setStack` (chip8.cpp:230): clears the error slot on success. -/
def setStack (s : Chip8) (subroutine address : Nat) : Chip8 :=
  if STACK_SIZE ≤ subroutine then
    setError s ErrorCode.StackOverflow ("Stack index out of bounds: " ++ decStr subroutine)
  else
    { clearError s with stack := updf s.stack subroutine (address % 65536) }

/-- `Chip8::setStackPointer` (chip8.cpp:240): allows 0..16 inclusive, clears
the error slot on success. -/
def setStackPointer (s : Chip8) (subroutine : Nat) : Chip8 :=
  if STACK_SIZE < subroutine then
    setError s ErrorCode.StackOverflow ("Stack pointer out of bounds: " ++ decStr subroutine)
  else
    { clearError s with stackPointer := subroutine }

/-- `Chip8::setRegisterAt` (chip8.cpp:250): clears the error slot on
success. -/
def setRegisterAt (s : Chip8) (reg value : Nat) : Chip8 :=
  if ¬ isValidRegisterIndex reg then
    setError s ErrorCode.InvalidRegisterAccess ("Invalid register index: " ++ decStr reg)
  else
    { clearError s with registers := updf s.registers reg (value % 256) }

/-- `Chip8::setDelayTimer`. -/
def setDelayTimer (s : Chip8) (value : Nat) : Chip8 :=
  { s with delayTimer := value % 256 }

/-- `Chip8::setDrawFlag`. -/
def setDrawFlag (s : Chip8) (condition : Bool) : Chip8 :=
  { s with drawFlag := condition }

/-- `Chip8::setIndexRegister` (no bounds check in the source). -/
def setIndexRegister (s : Chip8) (value : Nat) : Chip8 :=
  { s with indexRegister := value % 65536 }

/-- `Chip8::getMemoryAt` as defined in chip8.cpp:267 (parameter typed
`std::uint16_t` there): const read, 0 when out of range. -/
def getMemoryAt (s : Chip8) (address : Nat) : Nat :=
  if ¬ isValidMemoryAddress address then 0
  else s.memory address

/-- `Chip8::getMemoryAt` as declared in chip8.h:58, where the parameter is
`std::uint8_t`: a caller-supplied 16-bit address is truncated to a byte at
the call boundary before the body runs. -/
def getMemoryAtHeaderDecl (s : Chip8) (address : Nat) : Nat :=
  getMemoryAt s (address % 256)

/-- `Chip8::getStackAt`: const read, 0 when out of range. -/
def getStackAt (s : Chip8) (subroutine : Nat) : Nat :=
  if STACK_SIZE ≤ subroutine then 0
  else s.stack subroutine

/-- `Chip8::getRegisterAt`: const read, 0 when out of range. -/
def getRegisterAt (s : Chip8) (reg : Nat) : Nat :=
  if ¬ isValidRegisterIndex reg then 0
  else s.registers reg

/-- `Chip8::handleOpcode0xxx` (chip8.cpp:306): sub-dispatch on the LOW NIBBLE
only (`opcode_ & 0x000F`), so every family-0 word ending in 0 clears the
screen and every family-0 word ending in E returns. -/
def handleOpcode0xxx (s : Chip8) : Chip8 :=
  if s.opcode % 16 = 0x0 then
    { s with frameBuffer := fun _ => 0,
             drawFlag := true,
             programCounter := (s.programCounter + 2) % 65536 }
  else if s.opcode % 16 = 0xE then
    if s.stackPointer = 0 then
      setError s ErrorCode.StackUnderflow ("Stack underflow on return")
    else
      { s with stackPointer := s.stackPointer - 1,
               programCounter := (s.stack (s.stackPointer - 1) % 65536 + 2) % 65536 }
  else
    setError s ErrorCode.UnknownOpcode ("Unknown 0x0xxx opcode: 0x" ++ decStr s.opcode)

/-- `Chip8::handleOpcode1xxx` (chip8.cpp:330): jump to NNN. -/
def handleOpcode1xxx (s : Chip8) : Chip8 :=
  let address := s.opcode % 4096
  if ¬ isValidMemoryAddress address then
    setError s ErrorCode.InvalidMemoryAccess ("Invalid jump address: " ++ decStr address)
  else
    { s with programCounter := address }

/-- `Chip8::handleOpcode2xxx` (chip8.cpp:341): call NNN; on stack overflow
the error is recorded and the PC still advances by 2. -/
def handleOpcode2xxx (s : Chip8) : Chip8 :=
  if STACK_SIZE ≤ s.stackPointer then
    let s := setError s ErrorCode.StackOverflow ("Stack overflow on subroutine call")
    { s with programCounter := (s.programCounter + 2) % 65536 }
  else
    let address := s.opcode % 4096
    if ¬ isValidMemoryAddress address then
      let s := setError s ErrorCode.InvalidMemoryAccess
        ("Invalid call address: " ++ formatHex address)
      { s with programCounter := (s.programCounter + 2) % 65536 }
    else
      { s with stack := updf s.stack s.stackPointer s.programCounter,
               stackPointer := s.stackPointer + 1,
               programCounter := address }

/-- `Chip8::handleOpcode3xxx` (chip8.cpp:361): skip if VX = NN. -/
def handleOpcode3xxx (s : Chip8) : Chip8 :=
  let x := s.opcode / 256 % 16
  let nn := s.opcode % 256
  if ¬ isValidRegisterIndex x then
    setError s ErrorCode.InvalidRegisterAccess ("Invalid register index: " ++ decStr x)
  else if s.registers x = nn then
    { s with programCounter := (s.programCounter + 4) % 65536 }
  else
    { s with programCounter := (s.programCounter + 2) % 65536 }

/-- `Chip8::handleOpcode4xxx` (chip8.cpp:378): skip if VX /= NN. -/
def handleOpcode4xxx (s : Chip8) : Chip8 :=
  let x := s.opcode / 256 % 16
  let nn := s.opcode % 256
  if ¬ isValidRegisterIndex x then
    setError s ErrorCode.InvalidRegisterAccess ("Invalid register index: " ++ decStr x)
  else if s.registers x ≠ nn then
    { s with programCounter := (s.programCounter + 4) % 65536 }
  else
    { s with programCounter := (s.programCounter + 2) % 65536 }

/-- `Chip8::handleOpcode5xxx` (chip8.cpp:395): skip if VX = VY.  The source
never inspects the low nibble, so every `0x5XYk` word (any `k`) executes as
the skip instruction. -/
def handleOpcode5xxx (s : Chip8) : Chip8 :=
  let x := s.opcode / 256 % 16
  let y := s.opcode / 16 % 16
  if ¬ isValidRegisterIndex x ∨ ¬ isValidRegisterIndex y then
    setError s ErrorCode.InvalidRegisterAccess
      ("Invalid register indices: " ++ decStr x ++ ", " ++ decStr y)
  else if s.registers x = s.registers y then
    { s with programCounter := (s.programCounter + 4) % 65536 }
  else
    { s with programCounter := (s.programCounter + 2) % 65536 }

/-- `Chip8::handleOpcode6xxx` (chip8.cpp:413): VX := NN. -/
def handleOpcode6xxx (s : Chip8) : Chip8 :=
  let x := s.opcode / 256 % 16
  let nn := s.opcode % 256
  if ¬ isValidRegisterIndex x then
    setError s ErrorCode.InvalidRegisterAccess ("Invalid register index: " ++ decStr x)
  else
    { s with registers := updf s.registers x nn,
             programCounter := (s.programCounter + 2) % 65536 }

/-- `Chip8::handleOpcode7xxx` (chip8.cpp:427): VX += NN (8-bit wraparound,
no flag). -/
def handleOpcode7xxx (s : Chip8) : Chip8 :=
  let x := s.opcode / 256 % 16
  let nn := s.opcode % 256
  if ¬ isValidRegisterIndex x then
    setError s ErrorCode.InvalidRegisterAccess ("Invalid register index: " ++ decStr x)
  else
    { s with registers := updf s.registers x ((s.registers x + nn) % 256),
             programCounter := (s.programCounter + 2) % 65536 }

/-- `Chip8::handleOpcode8xxx` (chip8.cpp:441): the ALU family.  The flag
register 0xF is written BEFORE the destination register, so when X or Y is
0xF the second write observes the freshly written flag (register aliasing,
exactly as the sequential C++ assignments behave). -/
def handleOpcode8xxx (s : Chip8) : Chip8 :=
  let x := s.opcode / 256 % 16
  let y := s.opcode / 16 % 16
  if ¬ isValidRegisterIndex x ∨ ¬ isValidRegisterIndex y then
    setError s ErrorCode.InvalidRegisterAccess
      ("Invalid register indices: " ++ decStr x ++ ", " ++ decStr y)
  else
    let sub := s.opcode % 16
    if sub = 0x0 then
      { s with registers := updf s.registers x (s.registers y),
               programCounter := (s.programCounter + 2) % 65536 }
    else if sub = 0x1 then
      { s with registers := updf s.registers x (Nat.lor (s.registers x) (s.registers y)),
               programCounter := (s.programCounter + 2) % 65536 }
    else if sub = 0x2 then
      { s with registers := updf s.registers x (Nat.land (s.registers x) (s.registers y)),
               programCounter := (s.programCounter + 2) % 65536 }
    else if sub = 0x3 then
      { s with registers := updf s.registers x (Nat.xor (s.registers x) (s.registers y)),
               programCounter := (s.programCounter + 2) % 65536 }
    else if sub = 0x4 then
      -- registers_[0xF] = carry;  registers_[x] += registers_[y];
      let r1 := updf s.registers 0xF
        (if 255 - s.registers x < s.registers y then 1 else 0)
      { s with registers := updf r1 x ((r1 x + r1 y) % 256),
               programCounter := (s.programCounter + 2) % 65536 }
    else if sub = 0x5 then
      -- registers_[0xF] = not-borrow;  registers_[x] -= registers_[y];
      let r1 := updf s.registers 0xF
        (if s.registers y ≤ s.registers x then 1 else 0)
      { s with registers := updf r1 x ((r1 x + 256 - r1 y % 256) % 256),
               programCounter := (s.programCounter + 2) % 65536 }
    else if sub = 0x6 then
      -- registers_[0xF] = registers_[x] & 1;  registers_[x] >>= 1;
      let r1 := updf s.registers 0xF (s.registers x % 2)
      { s with registers := updf r1 x (r1 x / 2),
               programCounter := (s.programCounter + 2) % 65536 }
    else if sub = 0x7 then
      -- registers_[0xF] = not-borrow;  registers_[x] = registers_[y] - registers_[x];
      let r1 := updf s.registers 0xF
        (if s.registers x ≤ s.registers y then 1 else 0)
      { s with registers := updf r1 x ((r1 y + 256 - r1 x % 256) % 256),
               programCounter := (s.programCounter + 2) % 65536 }
    else if sub = 0xE then
      -- registers_[0xF] = registers_[x] >> 7;  registers_[x] <<= 1;
      let r1 := updf s.registers 0xF (s.registers x / 128)
      { s with registers := updf r1 x (r1 x * 2 % 256),
               programCounter := (s.programCounter + 2) % 65536 }
    else
      setError s ErrorCode.UnknownOpcode ("Unknown 0x8xxx opcode: 0x" ++ decStr s.opcode)

/-- `Chip8::handleOpcode9xxx` (chip8.cpp:514): skip if VX /= VY. -/
def handleOpcode9xxx (s : Chip8) : Chip8 :=
  let x := s.opcode / 256 % 16
  let y := s.opcode / 16 % 16
  if ¬ isValidRegisterIndex x ∨ ¬ isValidRegisterIndex y then
    setError s ErrorCode.InvalidRegisterAccess
      ("Invalid register indices: " ++ decStr x ++ ", " ++ decStr y)
  else if s.registers x ≠ s.registers y then
    { s with programCounter := (s.programCounter + 4) % 65536 }
  else
    { s with programCounter := (s.programCounter + 2) % 65536 }

/-- `Chip8::handleOpcodeAxxx` (chip8.cpp:532): I := NNN. -/
def handleOpcodeAxxx (s : Chip8) : Chip8 :=
  let address := s.opcode % 4096
  if ¬ isValidMemoryAddress address then
    setError s ErrorCode.InvalidMemoryAccess
      ("Invalid index register address: " ++ decStr address)
  else
    { s with indexRegister := address,
             programCounter := (s.programCounter + 2) % 65536 }

/-- `Chip8::handleOpcodeBxxx` (chip8.cpp:545): PC := V0 + NNN, rejected when
the sum leaves memory. -/
def handleOpcodeBxxx (s : Chip8) : Chip8 :=
  let address := (s.registers 0 + s.opcode % 4096) % 65536
  if ¬ isValidMemoryAddress address then
    setError s ErrorCode.InvalidMemoryAccess
      ("Invalid computed jump address: " ++ decStr address)
  else
    { s with programCounter := address }

/-- `Chip8::handleOpcodeCxxx` (chip8.cpp:557): VX := random byte AND NN.
`rnd % 256` stands for the byte drawn from the PRNG. -/
def handleOpcodeCxxx (rnd : Nat) (s : Chip8) : Chip8 :=
  let x := s.opcode / 256 % 16
  let nn := s.opcode % 256
  if ¬ isValidRegisterIndex x then
    setError s ErrorCode.InvalidRegisterAccess ("Invalid register index: " ++ decStr x)
  else
    { s with registers := updf s.registers x (Nat.land (rnd % 256) nn),
             programCounter := (s.programCounter + 2) % 65536 }

/-- One iteration of the inner column loop of `Chip8::handleOpcodeDxxx`
(chip8.cpp:597): when bit `col` of the sprite row is set, XOR the target
pixel and record a collision when it was lit.  The state threaded through is
the pair (frame buffer, flag-register value). -/
def drawPixel (spriteRow xPos yPos row : Nat) (st : (Nat → Nat) × Nat) (col : Nat) :
    (Nat → Nat) × Nat :=
  if Nat.land spriteRow (128 / 2 ^ col) ≠ 0 then
    let pixelX := (xPos + col) % DISPLAY_WIDTH
    let pixelY := (yPos + row) % DISPLAY_HEIGHT
    let pixelIndex := pixelY * DISPLAY_WIDTH + pixelX
    (updf st.1 pixelIndex (Nat.xor (st.1 pixelIndex) 1),
     if st.1 pixelIndex = 1 then 1 else st.2)
  else st

/-- Inner column loop of `Chip8::handleOpcodeDxxx` (chip8.cpp:597): fold
`drawPixel` over the eight columns. -/
def drawRowPixels (spriteRow xPos yPos row : Nat) (st : (Nat → Nat) × Nat) :
    (Nat → Nat) × Nat :=
  (List.range 8).foldl (drawPixel spriteRow xPos yPos row) st

/-- Row loop of `Chip8::handleOpcodeDxxx` (chip8.cpp:589).  The first `Nat`
argument counts the loop iterations still to run (`height - row`, initially
`height`); `row` is the current row index.  Returns the final (frame buffer,
flag) pair and `true` when a sprite byte would be read at or past
`MEMORY_SIZE` (the C++ early-return error path). -/
def drawRows (memory : Nat → Nat) (indexRegister xPos yPos : Nat) :
    Nat → Nat → ((Nat → Nat) × Nat) → ((Nat → Nat) × Nat) × Bool
  | 0, _row, st => (st, false)
  | remaining + 1, row, st =>
    if MEMORY_SIZE ≤ indexRegister + row then
      (st, true)
    else
      drawRows memory indexRegister xPos yPos remaining (row + 1)
        (drawRowPixels (memory (indexRegister + row)) xPos yPos row st)

/-- `Chip8::handleOpcodeDxxx` (chip8.cpp:572): draw sprite with collision
flag; on an out-of-bounds sprite byte the handler records the error and
returns early — rows already processed stay XORed in, and neither the draw
flag nor the PC is touched on that path. -/
def handleOpcodeDxxx (s : Chip8) : Chip8 :=
  let x := s.opcode / 256 % 16
  let y := s.opcode / 16 % 16
  let height := s.opcode % 16
  if ¬ isValidRegisterIndex x ∨ ¬ isValidRegisterIndex y then
    setError s ErrorCode.InvalidRegisterAccess
      ("Invalid register indices: " ++ decStr x ++ ", " ++ decStr y)
  else
    let xPos := s.registers x
    let yPos := s.registers y
    -- registers_[0xF] = 0 happens before the loop; the loop then only ever
    -- overwrites it with 1, so its final value is the accumulated flag.
    let r := drawRows s.memory s.indexRegister xPos yPos height 0 (s.frameBuffer, 0)
    if r.2 then
      setError
        { s with registers := updf s.registers 0xF r.1.2, frameBuffer := r.1.1 }
        ErrorCode.InvalidMemoryAccess ("Sprite data out of memory bounds")
    else
      { s with registers := updf s.registers 0xF r.1.2,
               frameBuffer := r.1.1,
               drawFlag := true,
               programCounter := (s.programCounter + 2) % 65536 }

/-- `Chip8::handleOpcodeExxx` (chip8.cpp:615): key skips, sub-dispatch on the
low nibble (cases 0xE and 0x1, everything else unknown). -/
def handleOpcodeExxx (s : Chip8) : Chip8 :=
  let x := s.opcode / 256 % 16
  if ¬ isValidRegisterIndex x then
    setError s ErrorCode.InvalidRegisterAccess ("Invalid register index: " ++ decStr x)
  else if s.opcode % 16 = 0xE then
    if s.registers x < KEYBOARD_SIZE ∧ s.keyboard (s.registers x) ≠ 0 then
      { s with programCounter := (s.programCounter + 4) % 65536 }
    else
      { s with programCounter := (s.programCounter + 2) % 65536 }
  else if s.opcode % 16 = 0x1 then
    if KEYBOARD_SIZE ≤ s.registers x ∨ s.keyboard (s.registers x) = 0 then
      { s with programCounter := (s.programCounter + 4) % 65536 }
    else
      { s with programCounter := (s.programCounter + 2) % 65536 }
  else
    setError s ErrorCode.UnknownOpcode ("Unknown 0xExxx opcode: 0x" ++ decStr s.opcode)

/-- `Chip8::handleOpcodeFxxx` (chip8.cpp:646): sub-dispatch on the low byte.
The key-wait case 0x0A returns without advancing the PC when no key is
pressed. -/
def handleOpcodeFxxx (s : Chip8) : Chip8 :=
  let x := s.opcode / 256 % 16
  if ¬ isValidRegisterIndex x then
    setError s ErrorCode.InvalidRegisterAccess ("Invalid register index: " ++ decStr x)
  else
    let sub := s.opcode % 256
    if sub = 0x07 then
      { s with registers := updf s.registers x s.delayTimer,
               programCounter := (s.programCounter + 2) % 65536 }
    else if sub = 0x0A then
      match (List.range KEYBOARD_SIZE).find? (fun i => s.keyboard i != 0) with
      | some i =>
          { s with registers := updf s.registers x i,
                   programCounter := (s.programCounter + 2) % 65536 }
      | none => s
    else if sub = 0x15 then
      { s with delayTimer := s.registers x % 256,
               programCounter := (s.programCounter + 2) % 65536 }
    else if sub = 0x18 then
      { s with soundTimer := s.registers x % 256,
               programCounter := (s.programCounter + 2) % 65536 }
    else if sub = 0x1E then
      { s with indexRegister := (s.indexRegister + s.registers x) % 65536,
               programCounter := (s.programCounter + 2) % 65536 }
    else if sub = 0x29 then
      if 0xF < s.registers x then
        setError s ErrorCode.InvalidMemoryAccess
          ("Invalid sprite digit: " ++ decStr (s.registers x))
      else
        { s with indexRegister := s.registers x * 5,
                 programCounter := (s.programCounter + 2) % 65536 }
    else if sub = 0x33 then
      if MEMORY_SIZE ≤ s.indexRegister + 2 then
        setError s ErrorCode.InvalidMemoryAccess ("BCD storage out of memory bounds")
      else
        let value := s.registers x
        { s with
          memory := updf (updf (updf s.memory s.indexRegister (value / 100 % 256))
                      (s.indexRegister + 1) (value / 10 % 10))
                      (s.indexRegister + 2) (value % 10),
          programCounter := (s.programCounter + 2) % 65536 }
    else if sub = 0x55 then
      if MEMORY_SIZE ≤ s.indexRegister + x then
        setError s ErrorCode.InvalidMemoryAccess ("Register dump out of memory bounds")
      else
        { s with
          memory := (List.range (x + 1)).foldl
                      (fun m i => updf m (s.indexRegister + i) (s.registers i % 256))
                      s.memory,
          programCounter := (s.programCounter + 2) % 65536 }
    else if sub = 0x65 then
      if MEMORY_SIZE ≤ s.indexRegister + x then
        setError s ErrorCode.InvalidMemoryAccess ("Register load out of memory bounds")
      else
        { s with
          registers := (List.range (x + 1)).foldl
                         (fun r i => updf r i (s.memory (s.indexRegister + i) % 256))
                         s.registers,
          programCounter := (s.programCounter + 2) % 65536 }
    else
      setError s ErrorCode.UnknownOpcode ("Unknown 0xFxxx opcode: 0x" ++ decStr s.opcode)

/-- The timer update at the end of `Chip8::emulateCycle` (chip8.cpp:162):
decrement each timer when nonzero (the beep on the sound timer reaching 0 is
a log side effect only). -/
def tickTimers (s : Chip8) : Chip8 :=
  let s := if 0 < s.delayTimer then { s with delayTimer := s.delayTimer - 1 } else s
  if 0 < s.soundTimer then { s with soundTimer := s.soundTimer - 1 } else s

/-- The big-endian instruction fetch in `Chip8::emulateCycle` (chip8.cpp:106):
`(memory_[pc] << 8) | memory_[pc + 1]`, written arithmetically (equal for
byte-valued cells). -/
def fetchWord (s : Chip8) : Nat :=
  s.memory s.programCounter * 256 + s.memory (s.programCounter + 1)

/-- The `switch (opcode_ & 0xF000)` dispatch of `Chip8::emulateCycle`
(chip8.cpp:108).  Each of the sixteen cases runs its handler and then falls
through to the timer update; the `default` branch (which would record
`UnknownOpcode` and skip the timer update) is unreachable because the masked
family is always one of the sixteen cases. -/
def execFamilies (rnd : Nat) (s : Chip8) : Chip8 :=
  let fam := s.opcode / 4096 % 16
  if fam = 0x0 then tickTimers (handleOpcode0xxx s)
  else if fam = 0x1 then tickTimers (handleOpcode1xxx s)
  else if fam = 0x2 then tickTimers (handleOpcode2xxx s)
  else if fam = 0x3 then tickTimers (handleOpcode3xxx s)
  else if fam = 0x4 then tickTimers (handleOpcode4xxx s)
  else if fam = 0x5 then tickTimers (handleOpcode5xxx s)
  else if fam = 0x6 then tickTimers (handleOpcode6xxx s)
  else if fam = 0x7 then tickTimers (handleOpcode7xxx s)
  else if fam = 0x8 then tickTimers (handleOpcode8xxx s)
  else if fam = 0x9 then tickTimers (handleOpcode9xxx s)
  else if fam = 0xA then tickTimers (handleOpcodeAxxx s)
  else if fam = 0xB then tickTimers (handleOpcodeBxxx s)
  else if fam = 0xC then tickTimers (handleOpcodeCxxx rnd s)
  else if fam = 0xD then tickTimers (handleOpcodeDxxx s)
  else if fam = 0xE then tickTimers (handleOpcodeExxx s)
  else if fam = 0xF then tickTimers (handleOpcodeFxxx s)
  else setError s ErrorCode.UnknownOpcode ("Unknown opcode: 0x" ++ decStr s.opcode)

/-- `Chip8::emulateCycle` (chip8.cpp:95): clear the error slot, guard the PC,
fetch, dispatch, tick timers. -/
def emulateCycle (rnd : Nat) (s : Chip8) : Chip8 :=
  let s := clearError s
  if MEMORY_SIZE - 1 ≤ s.programCounter then
    setError s ErrorCode.InvalidMemoryAccess
      ("Program counter out of bounds: " ++ decStr s.programCounter)
  else
    execFamilies rnd { s with opcode := fetchWord s }

/-- One public operation on the core: a cycle (with its random byte) or one
of the mutating accessors.  `setPixel` is deliberately listed too so that
claims quantifying over operation sequences can include or exclude it. -/
inductive Op where
  | step (rnd : Nat)
  | wMem (address value : Nat)
  | wPC (address : Nat)
  | wStack (subroutine address : Nat)
  | wSP (subroutine : Nat)
  | wReg (reg value : Nat)
  | wDelay (value : Nat)
  | wDraw (condition : Bool)
  | wIndex (value : Nat)
  | wKey (key : Nat) (pressed : Bool)
  | wPixel (x y value : Nat)

/-- Interpretation of a public operation. -/
def applyOp (s : Chip8) : Op → Chip8
  | Op.step rnd => emulateCycle rnd s
  | Op.wMem a v => setMemory s a v
  | Op.wPC a => setProgramCounter s a
  | Op.wStack i a => setStack s i a
  | Op.wSP p => setStackPointer s p
  | Op.wReg r v => setRegisterAt s r v
  | Op.wDelay v => setDelayTimer s v
  | Op.wDraw b => setDrawFlag s b
  | Op.wIndex v => setIndexRegister s v
  | Op.wKey k p => setKeyState s k p
  | Op.wPixel x y v => setPixel s x y v

/-- Run a sequence of public operations from the reset state. -/
def runOps (ops : List Op) : Chip8 :=
  ops.foldl applyOp init

/-- An operation sequence avoids the raw pixel accessor. -/
def noPixelWrites (ops : List Op) : Prop :=
  ∀ o ∈ ops, ∀ x y v, o ≠ Op.wPixel x y v

/-! ### Basic reduction lemmas -/

@[simp] theorem updf_same (f : Nat → Nat) (i v : Nat) : updf f i v i = v := by
  simp [updf]

theorem updf_ne (f : Nat → Nat) (i v j : Nat) (h : j ≠ i) : updf f i v j = f j := by
  simp [updf, h]

@[simp] theorem tickTimers_memory (s : Chip8) : (tickTimers s).memory = s.memory := by
  simp only [tickTimers]; split_ifs <;> rfl

@[simp] theorem tickTimers_registers (s : Chip8) : (tickTimers s).registers = s.registers := by
  simp only [tickTimers]; split_ifs <;> rfl

@[simp] theorem tickTimers_stack (s : Chip8) : (tickTimers s).stack = s.stack := by
  simp only [tickTimers]; split_ifs <;> rfl

@[simp] theorem tickTimers_frameBuffer (s : Chip8) :
    (tickTimers s).frameBuffer = s.frameBuffer := by
  simp only [tickTimers]; split_ifs <;> rfl

@[simp] theorem tickTimers_keyboard (s : Chip8) : (tickTimers s).keyboard = s.keyboard := by
  simp only [tickTimers]; split_ifs <;> rfl

@[simp] theorem tickTimers_indexRegister (s : Chip8) :
    (tickTimers s).indexRegister = s.indexRegister := by
  simp only [tickTimers]; split_ifs <;> rfl

@[simp] theorem tickTimers_stackPointer (s : Chip8) :
    (tickTimers s).stackPointer = s.stackPointer := by
  simp only [tickTimers]; split_ifs <;> rfl

@[simp] theorem tickTimers_programCounter (s : Chip8) :
    (tickTimers s).programCounter = s.programCounter := by
  simp only [tickTimers]; split_ifs <;> rfl

@[simp] theorem tickTimers_opcode (s : Chip8) : (tickTimers s).opcode = s.opcode := by
  simp only [tickTimers]; split_ifs <;> rfl

@[simp] theorem tickTimers_drawFlag (s : Chip8) : (tickTimers s).drawFlag = s.drawFlag := by
  simp only [tickTimers]; split_ifs <;> rfl

@[simp] theorem tickTimers_lastError (s : Chip8) : (tickTimers s).lastError = s.lastError := by
  simp only [tickTimers]; split_ifs <;> rfl

@[simp] theorem tickTimers_lastErrorMessage (s : Chip8) :
    (tickTimers s).lastErrorMessage = s.lastErrorMessage := by
  simp only [tickTimers]; split_ifs <;> rfl

@[simp] theorem tickTimers_delayTimer (s : Chip8) :
    (tickTimers s).delayTimer = s.delayTimer - 1 := by
  simp only [tickTimers]; split_ifs <;> (try dsimp only) <;> omega

@[simp] theorem tickTimers_soundTimer (s : Chip8) :
    (tickTimers s).soundTimer = s.soundTimer - 1 := by
  simp only [tickTimers]; split_ifs <;> (try dsimp only at *) <;> omega

/-- Reduce one cycle to the family dispatch when the PC guard passes. -/
theorem emulateCycle_eq (rnd : Nat) (s : Chip8) (h : s.programCounter < MEMORY_SIZE - 1) :
    emulateCycle rnd s = execFamilies rnd { clearError s with opcode := fetchWord s } := by
  unfold emulateCycle
  rw [if_neg]
  · rfl
  · simp only [clearError]
    omega


/-! ### Projection lemmas for the error helpers -/

@[simp] theorem setError_memory (s : Chip8) (e : ErrorCode) (m : String) :
    (setError s e m).memory = s.memory := rfl

@[simp] theorem setError_registers (s : Chip8) (e : ErrorCode) (m : String) :
    (setError s e m).registers = s.registers := rfl

@[simp] theorem setError_stack (s : Chip8) (e : ErrorCode) (m : String) :
    (setError s e m).stack = s.stack := rfl

@[simp] theorem setError_frameBuffer (s : Chip8) (e : ErrorCode) (m : String) :
    (setError s e m).frameBuffer = s.frameBuffer := rfl

@[simp] theorem setError_keyboard (s : Chip8) (e : ErrorCode) (m : String) :
    (setError s e m).keyboard = s.keyboard := rfl

@[simp] theorem setError_indexRegister (s : Chip8) (e : ErrorCode) (m : String) :
    (setError s e m).indexRegister = s.indexRegister := rfl

@[simp] theorem setError_stackPointer (s : Chip8) (e : ErrorCode) (m : String) :
    (setError s e m).stackPointer = s.stackPointer := rfl

@[simp] theorem setError_delayTimer (s : Chip8) (e : ErrorCode) (m : String) :
    (setError s e m).delayTimer = s.delayTimer := rfl

@[simp] theorem setError_soundTimer (s : Chip8) (e : ErrorCode) (m : String) :
    (setError s e m).soundTimer = s.soundTimer := rfl

@[simp] theorem setError_programCounter (s : Chip8) (e : ErrorCode) (m : String) :
    (setError s e m).programCounter = s.programCounter := rfl

@[simp] theorem setError_opcode (s : Chip8) (e : ErrorCode) (m : String) :
    (setError s e m).opcode = s.opcode := rfl

@[simp] theorem setError_drawFlag (s : Chip8) (e : ErrorCode) (m : String) :
    (setError s e m).drawFlag = s.drawFlag := rfl

@[simp] theorem setError_lastError (s : Chip8) (e : ErrorCode) (m : String) :
    (setError s e m).lastError = e := rfl

@[simp] theorem setError_lastErrorMessage (s : Chip8) (e : ErrorCode) (m : String) :
    (setError s e m).lastErrorMessage = m := rfl

@[simp] theorem clearError_memory (s : Chip8) :
    (clearError s).memory = s.memory := rfl

@[simp] theorem clearError_registers (s : Chip8) :
    (clearError s).registers = s.registers := rfl

@[simp] theorem clearError_stack (s : Chip8) :
    (clearError s).stack = s.stack := rfl

@[simp] theorem clearError_frameBuffer (s : Chip8) :
    (clearError s).frameBuffer = s.frameBuffer := rfl

@[simp] theorem clearError_keyboard (s : Chip8) :
    (clearError s).keyboard = s.keyboard := rfl

@[simp] theorem clearError_indexRegister (s : Chip8) :
    (clearError s).indexRegister = s.indexRegister := rfl

@[simp] theorem clearError_stackPointer (s : Chip8) :
    (clearError s).stackPointer = s.stackPointer := rfl

@[simp] theorem clearError_delayTimer (s : Chip8) :
    (clearError s).delayTimer = s.delayTimer := rfl

@[simp] theorem clearError_soundTimer (s : Chip8) :
    (clearError s).soundTimer = s.soundTimer := rfl

@[simp] theorem clearError_programCounter (s : Chip8) :
    (clearError s).programCounter = s.programCounter := rfl

@[simp] theorem clearError_opcode (s : Chip8) :
    (clearError s).opcode = s.opcode := rfl

@[simp] theorem clearError_drawFlag (s : Chip8) :
    (clearError s).drawFlag = s.drawFlag := rfl

@[simp] theorem clearError_lastError (s : Chip8) :
    (clearError s).lastError = ErrorCode.None := rfl

/-! ### Family dispatch lemmas -/

theorem execFamilies_0 (rnd : Nat) (s : Chip8) (h : s.opcode / 4096 % 16 = 0) :
    execFamilies rnd s = tickTimers (handleOpcode0xxx s) := by
  unfold execFamilies; rw [h]; norm_num

theorem execFamilies_1 (rnd : Nat) (s : Chip8) (h : s.opcode / 4096 % 16 = 1) :
    execFamilies rnd s = tickTimers (handleOpcode1xxx s) := by
  unfold execFamilies; rw [h]; norm_num

theorem execFamilies_2 (rnd : Nat) (s : Chip8) (h : s.opcode / 4096 % 16 = 2) :
    execFamilies rnd s = tickTimers (handleOpcode2xxx s) := by
  unfold execFamilies; rw [h]; norm_num

theorem execFamilies_3 (rnd : Nat) (s : Chip8) (h : s.opcode / 4096 % 16 = 3) :
    execFamilies rnd s = tickTimers (handleOpcode3xxx s) := by
  unfold execFamilies; rw [h]; norm_num

theorem execFamilies_4 (rnd : Nat) (s : Chip8) (h : s.opcode / 4096 % 16 = 4) :
    execFamilies rnd s = tickTimers (handleOpcode4xxx s) := by
  unfold execFamilies; rw [h]; norm_num

theorem execFamilies_5 (rnd : Nat) (s : Chip8) (h : s.opcode / 4096 % 16 = 5) :
    execFamilies rnd s = tickTimers (handleOpcode5xxx s) := by
  unfold execFamilies; rw [h]; norm_num

theorem execFamilies_6 (rnd : Nat) (s : Chip8) (h : s.opcode / 4096 % 16 = 6) :
    execFamilies rnd s = tickTimers (handleOpcode6xxx s) := by
  unfold execFamilies; rw [h]; norm_num

theorem execFamilies_7 (rnd : Nat) (s : Chip8) (h : s.opcode / 4096 % 16 = 7) :
    execFamilies rnd s = tickTimers (handleOpcode7xxx s) := by
  unfold execFamilies; rw [h]; norm_num

theorem execFamilies_8 (rnd : Nat) (s : Chip8) (h : s.opcode / 4096 % 16 = 8) :
    execFamilies rnd s = tickTimers (handleOpcode8xxx s) := by
  unfold execFamilies; rw [h]; norm_num

theorem execFamilies_9 (rnd : Nat) (s : Chip8) (h : s.opcode / 4096 % 16 = 9) :
    execFamilies rnd s = tickTimers (handleOpcode9xxx s) := by
  unfold execFamilies; rw [h]; norm_num

theorem execFamilies_10 (rnd : Nat) (s : Chip8) (h : s.opcode / 4096 % 16 = 10) :
    execFamilies rnd s = tickTimers (handleOpcodeAxxx s) := by
  unfold execFamilies; rw [h]; norm_num

theorem execFamilies_11 (rnd : Nat) (s : Chip8) (h : s.opcode / 4096 % 16 = 11) :
    execFamilies rnd s = tickTimers (handleOpcodeBxxx s) := by
  unfold execFamilies; rw [h]; norm_num

theorem execFamilies_12 (rnd : Nat) (s : Chip8) (h : s.opcode / 4096 % 16 = 12) :
    execFamilies rnd s = tickTimers (handleOpcodeCxxx rnd s) := by
  unfold execFamilies; rw [h]; norm_num

theorem execFamilies_13 (rnd : Nat) (s : Chip8) (h : s.opcode / 4096 % 16 = 13) :
    execFamilies rnd s = tickTimers (handleOpcodeDxxx s) := by
  unfold execFamilies; rw [h]; norm_num

theorem execFamilies_14 (rnd : Nat) (s : Chip8) (h : s.opcode / 4096 % 16 = 14) :
    execFamilies rnd s = tickTimers (handleOpcodeExxx s) := by
  unfold execFamilies; rw [h]; norm_num

theorem execFamilies_15 (rnd : Nat) (s : Chip8) (h : s.opcode / 4096 % 16 = 15) :
    execFamilies rnd s = tickTimers (handleOpcodeFxxx s) := by
  unfold execFamilies; rw [h]; norm_num

/-! ### Decode arithmetic: the opcode fields of a fetched word `a * 256 + b`
with byte-valued `a` and `b`. -/

theorem decode_fam (a b : Nat) (hbytea : a < 256) (hbyteb : b < 256) :
    (a * 256 + b) / 4096 % 16 = a / 16 := by omega

theorem decode_x (a b : Nat) (hbyteb : b < 256) :
    (a * 256 + b) / 256 % 16 = a % 16 := by omega

theorem decode_y (a b : Nat) (hbyteb : b < 256) :
    (a * 256 + b) / 16 % 16 = b / 16 := by omega

theorem decode_n (a b : Nat) :
    (a * 256 + b) % 16 = b % 16 := by omega

theorem decode_nn (a b : Nat) (hbyteb : b < 256) :
    (a * 256 + b) % 256 = b := by omega

theorem decode_nnn (a b : Nat) (hbyteb : b < 256) :
    (a * 256 + b) % 4096 = a % 16 * 256 + b := by omega

/-! ### Behaviour of the call handler -/

theorem handleOpcode2xxx_overflow (t : Chip8) (h : STACK_SIZE ≤ t.stackPointer) :
    handleOpcode2xxx t =
      { setError t ErrorCode.StackOverflow ("Stack overflow on subroutine call") with
        programCounter := (t.programCounter + 2) % 65536 } := by
  simp only [handleOpcode2xxx]
  rw [if_pos h]
  simp

theorem handleOpcode2xxx_push (t : Chip8) (h : ¬ STACK_SIZE ≤ t.stackPointer) :
    handleOpcode2xxx t =
      { t with stack := updf t.stack t.stackPointer t.programCounter,
               stackPointer := t.stackPointer + 1,
               programCounter := t.opcode % 4096 } := by
  simp only [handleOpcode2xxx]
  rw [if_neg h, if_neg]
  simp only [isValidMemoryAddress, MEMORY_SIZE, not_not]
  omega

/-- Claim C3: with the stack pointer at 16, a `0x2NNN` call records
`StackOverflow`, advances the PC by exactly 2 (it does not jump), and leaves
the stack pointer and every stack slot unchanged; with the stack pointer
below 16 it pushes the current PC into the slot at the pointer, increments
the pointer, and jumps to NNN (which is always a valid address). -/
theorem call_stackOverflow_and_push (rnd : Nat) (s : Chip8)
    (hpc : s.programCounter < 4095)
    (ha : s.memory s.programCounter < 256)
    (hb : s.memory (s.programCounter + 1) < 256)
    (hfam : s.memory s.programCounter / 16 = 2) :
    (s.stackPointer = 16 →
      (emulateCycle rnd s).lastError = ErrorCode.StackOverflow ∧
      (emulateCycle rnd s).programCounter = s.programCounter + 2 ∧
      (emulateCycle rnd s).stackPointer = 16 ∧
      ∀ i, (emulateCycle rnd s).stack i = s.stack i) ∧
    (s.stackPointer < 16 →
      (emulateCycle rnd s).programCounter =
        s.memory s.programCounter % 16 * 256 + s.memory (s.programCounter + 1) ∧
      (emulateCycle rnd s).programCounter < 4096 ∧
      (emulateCycle rnd s).stackPointer = s.stackPointer + 1 ∧
      (emulateCycle rnd s).stack s.stackPointer = s.programCounter ∧
      ∀ i, i ≠ s.stackPointer → (emulateCycle rnd s).stack i = s.stack i) := by
  have hguard : s.programCounter < MEMORY_SIZE - 1 := by
    simp only [MEMORY_SIZE]; omega
  have hcyc := emulateCycle_eq rnd s hguard
  have hopc : ({ clearError s with opcode := fetchWord s } : Chip8).opcode / 4096 % 16 = 2 := by
    show fetchWord s / 4096 % 16 = 2
    unfold fetchWord
    rw [decode_fam _ _ ha hb, hfam]
  rw [execFamilies_2 rnd _ hopc] at hcyc
  constructor
  · intro hsp
    have hover : STACK_SIZE ≤ ({ clearError s with opcode := fetchWord s } : Chip8).stackPointer := by
      show STACK_SIZE ≤ s.stackPointer
      simp only [STACK_SIZE]
      omega
    rw [handleOpcode2xxx_overflow _ hover] at hcyc
    rw [hcyc]
    refine ⟨by simp, ?_, by simp [hsp], by intro i; simp⟩
    simp
    omega
  · intro hsp
    have hlow : ¬ STACK_SIZE ≤ ({ clearError s with opcode := fetchWord s } : Chip8).stackPointer := by
      show ¬ STACK_SIZE ≤ s.stackPointer
      simp only [STACK_SIZE]
      omega
    rw [handleOpcode2xxx_push _ hlow] at hcyc
    rw [hcyc]
    have hnnn : ({ clearError s with opcode := fetchWord s } : Chip8).opcode % 4096 =
        s.memory s.programCounter % 16 * 256 + s.memory (s.programCounter + 1) := by
      show fetchWord s % 4096 = _
      unfold fetchWord
      rw [decode_nnn _ _ hb]
    refine ⟨by simp [hnnn], by simp [hnnn]; omega, by simp, by simp, ?_⟩
    intro i hi
    simp [updf_ne _ _ _ _ hi]

/-- Witness for the call theorem: a concrete full-stack state and a concrete
pushing state, both executing `0x2200` at 0x200. -/
theorem call_stackOverflow_and_push_witness :
    ((emulateCycle 0 { init with
        memory := updf init.memory 0x200 0x22, stackPointer := 16 }).lastError =
      ErrorCode.StackOverflow ∧
     (emulateCycle 0 { init with
        memory := updf init.memory 0x200 0x22, stackPointer := 16 }).programCounter = 0x202) ∧
    ((emulateCycle 0 { init with
        memory := updf init.memory 0x200 0x22 }).programCounter = 0x200 ∧
     (emulateCycle 0 { init with
        memory := updf init.memory 0x200 0x22 }).stackPointer = 1) := by
  constructor
  · have h := (call_stackOverflow_and_push 0
      { init with memory := updf init.memory 0x200 0x22, stackPointer := 16 }
      (by decide) (by decide) (by decide) (by rfl)).1 (by decide)
    exact ⟨h.1, h.2.1⟩
  · have h := (call_stackOverflow_and_push 0
      { init with memory := updf init.memory 0x200 0x22 }
      (by decide) (by decide) (by decide) (by rfl)).2 (by decide)
    exact ⟨by rw [h.1]; decide, h.2.2.1⟩

/-! ### Behaviour of the ALU add handler -/

theorem decoded_x_valid (op : Nat) : isValidRegisterIndex (op / 256 % 16) := by
  simp only [isValidRegisterIndex, REGISTER_COUNT]
  omega

theorem decoded_y_valid (op : Nat) : isValidRegisterIndex (op / 16 % 16) := by
  simp only [isValidRegisterIndex, REGISTER_COUNT]
  omega

theorem handleOpcode8xxx_add (t : Chip8) (h4 : t.opcode % 16 = 4) :
    handleOpcode8xxx t =
      { t with
        registers :=
          updf (updf t.registers 0xF
              (if 255 - t.registers (t.opcode / 256 % 16) < t.registers (t.opcode / 16 % 16)
               then 1 else 0))
            (t.opcode / 256 % 16)
            ((updf t.registers 0xF
                (if 255 - t.registers (t.opcode / 256 % 16) < t.registers (t.opcode / 16 % 16)
                 then 1 else 0) (t.opcode / 256 % 16) +
              updf t.registers 0xF
                (if 255 - t.registers (t.opcode / 256 % 16) < t.registers (t.opcode / 16 % 16)
                 then 1 else 0) (t.opcode / 16 % 16)) % 256),
        programCounter := (t.programCounter + 2) % 65536 } := by
  simp only [handleOpcode8xxx]
  rw [if_neg (by simp [decoded_x_valid, decoded_y_valid]), h4]
  norm_num

/-- Claim C4 (amended): for register indices X, Y both different from the
flag register 0xF, `0x8XY4` sets register 0xF to 1 exactly when the unsigned
sum of VX and VY exceeds 255 (0 otherwise) and sets VX to the sum mod 256;
the scenario V1=0xFF, V2=0x01, opcode 0x8124 is an instance.  (When X or Y
is 0xF the C++ writes the flag register first and the subsequent
read-modify-write of VX observes the new flag, so the original claim fails;
see the counterexample.) -/
theorem addWithCarry (rnd : Nat) (s : Chip8) (x y : Nat)
    (hx : x < 16) (hy : y < 16) (hxF : x ≠ 15) (hyF : y ≠ 15)
    (hpc : s.programCounter < 4095)
    (ha : s.memory s.programCounter = 0x80 + x)
    (hb : s.memory (s.programCounter + 1) = 16 * y + 4)
    (hrx : s.registers x ≤ 255) :
    (emulateCycle rnd s).registers 15 =
      (if 255 < s.registers x + s.registers y then 1 else 0) ∧
    (emulateCycle rnd s).registers x = (s.registers x + s.registers y) % 256 ∧
    (emulateCycle rnd s).programCounter = s.programCounter + 2 := by
  have hguard : s.programCounter < MEMORY_SIZE - 1 := by
    simp only [MEMORY_SIZE]; omega
  have hcyc := emulateCycle_eq rnd s hguard
  have hfw : fetchWord s = (0x80 + x) * 256 + (16 * y + 4) := by
    unfold fetchWord; rw [ha, hb]
  have hopc : ({ clearError s with opcode := fetchWord s } : Chip8).opcode / 4096 % 16 = 8 := by
    show fetchWord s / 4096 % 16 = 8
    rw [hfw]; omega
  rw [execFamilies_8 rnd _ hopc] at hcyc
  have hsub : ({ clearError s with opcode := fetchWord s } : Chip8).opcode % 16 = 4 := by
    show fetchWord s % 16 = 4
    rw [hfw]; omega
  rw [handleOpcode8xxx_add _ hsub] at hcyc
  have hxdec : ({ clearError s with opcode := fetchWord s } : Chip8).opcode / 256 % 16 = x := by
    show fetchWord s / 256 % 16 = x
    rw [hfw]; omega
  have hydec : ({ clearError s with opcode := fetchWord s } : Chip8).opcode / 16 % 16 = y := by
    show fetchWord s / 16 % 16 = y
    rw [hfw]; omega
  rw [hcyc]
  simp only [tickTimers_registers, tickTimers_programCounter, hxdec, hydec]
  have hcarry : (255 - s.registers x < s.registers y) = (255 < s.registers x + s.registers y) := by
    rw [eq_iff_iff]; omega
  refine ⟨?_, ?_, ?_⟩
  · show updf _ x _ 15 = _
    rw [updf_ne _ _ _ _ (by omega)]
    show updf _ 15 _ 15 = _
    rw [updf_same]
    simp only [clearError_registers, hcarry]
  · show updf _ x _ x = _
    rw [updf_same]
    simp only [clearError_registers]
    rw [updf_ne _ _ _ _ (by omega), updf_ne _ _ _ _ (by omega)]
  · show (_ + 2) % 65536 = _
    simp only [clearError_programCounter]
    omega

/-- Witness for the add-with-carry theorem: the spec scenario V1=0xFF,
V2=0x01, opcode 0x8124 at 0x200 yields V1=0x00 and VF=1. -/
theorem addWithCarry_witness :
    (emulateCycle 0 { init with
        memory := updf (updf init.memory 0x200 0x81) 0x201 0x24,
        registers := updf (updf init.registers 1 0xFF) 2 0x01 }).registers 15 = 1 ∧
    (emulateCycle 0 { init with
        memory := updf (updf init.memory 0x200 0x81) 0x201 0x24,
        registers := updf (updf init.registers 1 0xFF) 2 0x01 }).registers 1 = 0 := by
  have h := addWithCarry 0
    { init with
      memory := updf (updf init.memory 0x200 0x81) 0x201 0x24,
      registers := updf (updf init.registers 1 0xFF) 2 0x01 }
    1 2 (by omega) (by omega) (by omega) (by omega) (by decide)
    (by rfl) (by rfl) (by decide)
  refine ⟨by rw [h.1]; decide, by rw [h.2.1]; decide⟩

/-- Counterexample to claim C4 as stated for every X, Y: with Y = 0xF
(opcode 0x81F4), V1 = 1 and VF = 1, the claim predicts V1 = (1 + 1) mod 256
= 2, but the code first overwrites VF with the carry (0) and the add then
reads that new value, leaving V1 = 1. -/
theorem addWithCarry_aliasing_counterexample :
    (emulateCycle 0 { init with
        memory := updf (updf init.memory 0x200 0x81) 0x201 0xF4,
        registers := updf (updf init.registers 1 1) 15 1 }).registers 1 = 1 ∧
    (({ init with
        memory := updf (updf init.memory 0x200 0x81) 0x201 0xF4,
        registers := updf (updf init.registers 1 1) 15 1 } : Chip8).registers 1 +
      ({ init with
        memory := updf (updf init.memory 0x200 0x81) 0x201 0xF4,
        registers := updf (updf init.registers 1 1) 15 1 } : Chip8).registers 15) % 256 = 2 ∧
    (emulateCycle 0 { init with
        memory := updf (updf init.memory 0x200 0x81) 0x201 0xF4,
        registers := updf (updf init.registers 1 1) 15 1 }).registers 1 ≠ 2 := by
  refine ⟨by decide, by decide, by decide⟩

/-! ### Behaviour of the blocking key-wait -/

theorem handleOpcodeFxxx_waitKey_none (t : Chip8) (hsub : t.opcode % 256 = 0x0A)
    (hkeys : ∀ k, k < 16 → t.keyboard k = 0) :
    handleOpcodeFxxx t = t := by
  have hfind : (List.range KEYBOARD_SIZE).find? (fun i => t.keyboard i != 0) = none := by
    rw [List.find?_eq_none]
    intro k hk
    rw [List.mem_range] at hk
    simp [hkeys k hk]
  simp only [handleOpcodeFxxx]
  rw [if_neg (by simp [decoded_x_valid]), hsub]
  norm_num
  rw [hfind]

/-- Claim C10: when the current instruction is `0xFX0A` and no key 0..15 is
pressed, one step leaves the PC, registers, memory, stack and display
unchanged, records no error, and still applies the timer tick: each timer is
decremented by 1 with truncation at 0 (a nonzero timer decreases by one, a
zero timer stays zero). -/
theorem waitKey_keeps_state_ticks_timers (rnd : Nat) (s : Chip8)
    (hpc : s.programCounter < 4095)
    (ha : s.memory s.programCounter < 256)
    (hfam : s.memory s.programCounter / 16 = 15)
    (hb : s.memory (s.programCounter + 1) = 0x0A)
    (hkeys : ∀ k, k < 16 → s.keyboard k = 0) :
    (emulateCycle rnd s).programCounter = s.programCounter ∧
    (emulateCycle rnd s).registers = s.registers ∧
    (emulateCycle rnd s).memory = s.memory ∧
    (emulateCycle rnd s).stack = s.stack ∧
    (emulateCycle rnd s).stackPointer = s.stackPointer ∧
    (emulateCycle rnd s).frameBuffer = s.frameBuffer ∧
    (emulateCycle rnd s).drawFlag = s.drawFlag ∧
    (emulateCycle rnd s).lastError = ErrorCode.None ∧
    (emulateCycle rnd s).delayTimer = s.delayTimer - 1 ∧
    (emulateCycle rnd s).soundTimer = s.soundTimer - 1 := by
  have hguard : s.programCounter < MEMORY_SIZE - 1 := by
    simp only [MEMORY_SIZE]; omega
  have hcyc := emulateCycle_eq rnd s hguard
  have hopc : ({ clearError s with opcode := fetchWord s } : Chip8).opcode / 4096 % 16 = 15 := by
    show fetchWord s / 4096 % 16 = 15
    unfold fetchWord
    rw [hb, decode_fam _ _ ha (by omega), hfam]
  rw [execFamilies_15 rnd _ hopc] at hcyc
  rw [handleOpcodeFxxx_waitKey_none _ ?_ ?_] at hcyc
  · rw [hcyc]
    repeat' constructor
    all_goals simp
  · show fetchWord s % 256 = 0x0A
    unfold fetchWord
    rw [hb, decode_nn _ _ (by omega)]
  · intro k hk
    show s.keyboard k = 0
    exact hkeys k hk

/-- Witness for the key-wait theorem: `0xF50A` at 0x200 with no key pressed
and both timers at 3 leaves the PC at 0x200 and brings the timers to 2. -/
theorem waitKey_keeps_state_ticks_timers_witness :
    (emulateCycle 0 { init with
        memory := updf (updf init.memory 0x200 0xF5) 0x201 0x0A,
        delayTimer := 3, soundTimer := 3 }).programCounter = 0x200 ∧
    (emulateCycle 0 { init with
        memory := updf (updf init.memory 0x200 0xF5) 0x201 0x0A,
        delayTimer := 3, soundTimer := 3 }).delayTimer = 2 ∧
    (emulateCycle 0 { init with
        memory := updf (updf init.memory 0x200 0xF5) 0x201 0x0A,
        delayTimer := 3, soundTimer := 3 }).soundTimer = 2 := by
  have h := waitKey_keeps_state_ticks_timers 0
    { init with
      memory := updf (updf init.memory 0x200 0xF5) 0x201 0x0A,
      delayTimer := 3, soundTimer := 3 }
    (by decide) (by decide) (by rfl) (by decide) (by intro k hk; rfl)
  obtain ⟨hwpc, -, -, -, -, -, -, -, hwdelay, hwsound⟩ := h
  refine ⟨by rw [hwpc]; rfl, by rw [hwdelay]; rfl, by rw [hwsound]; rfl⟩

/-! ### Memory accessor round trip (and the header/implementation mismatch) -/

/-- Claim C1: the memory write/read round trip.  Against the implementation
in chip8.cpp:212/267 (16-bit address parameter) the claim holds: writes at
`a < 4096` round-trip and writes at `a >= 4096` are rejected with
`InvalidMemoryAccess` and no memory change.  But chip8.h:58 declares the
read with a `std::uint8_t` parameter, so at the declared interface every
address is truncated mod 256 before the body runs: reading back address
0x200 after writing 0x42 there consults cell 0x00 and returns the font byte
0xF0 instead.  (The two files also contradict each other outright: the
out-of-class definition with a `std::uint16_t` parameter matches no
declaration in the class.) -/
theorem memory_roundtrip_and_header_truncation :
    (∀ (s : Chip8) (a v : Nat), a < 4096 → v < 256 →
      getMemoryAt (setMemory s a v) a = v) ∧
    (∀ (s : Chip8) (a v : Nat), 4096 ≤ a →
      (setMemory s a v).lastError = ErrorCode.InvalidMemoryAccess ∧
      (setMemory s a v).memory = s.memory) ∧
    (getMemoryAtHeaderDecl (setMemory init 0x200 0x42) 0x200 = 0xF0 ∧
     getMemoryAt (setMemory init 0x200 0x42) 0x200 = 0x42) := by
  refine ⟨?_, ?_, by decide, ?_⟩
  · intro s a v hav hv
    rw [setMemory, if_neg (by simp [isValidMemoryAddress, MEMORY_SIZE]; omega)]
    rw [getMemoryAt, if_neg (by simp [isValidMemoryAddress, MEMORY_SIZE]; omega)]
    show updf s.memory a (v % 256) a = v
    rw [updf_same]
    omega
  · intro s a v hav
    rw [setMemory, if_pos (by simp [isValidMemoryAddress, MEMORY_SIZE]; omega)]
    exact ⟨rfl, rfl⟩
  · decide

/-- Witness for the memory round-trip theorem at concrete inputs. -/
theorem memory_roundtrip_and_header_truncation_witness :
    getMemoryAt (setMemory init 0x300 0x7B) 0x300 = 0x7B ∧
    (setMemory init 4096 0x7B).lastError = ErrorCode.InvalidMemoryAccess := by
  refine ⟨memory_roundtrip_and_header_truncation.1 init 0x300 0x7B (by decide) (by decide),
    (memory_roundtrip_and_header_truncation.2.1 init 4096 0x7B (by decide)).1⟩

/-! ### Register accessors -/

/-- Claim C7 (amended): the register write/read round trip holds for
`r <= 15`; for `r > 15` the write records `InvalidRegister`
(`InvalidRegisterAccess`), whose message carries the offending index, and
changes no register, while the read simply yields 0 — being a `const`
method it records nothing in the last-error slot (the original claim said
both operations record the error). -/
theorem register_roundtrip_and_silent_read :
    (∀ (s : Chip8) (r v : Nat), r < 16 → v < 256 →
      getRegisterAt (setRegisterAt s r v) r = v) ∧
    (∀ (s : Chip8) (r v : Nat), 16 ≤ r →
      (setRegisterAt s r v).lastError = ErrorCode.InvalidRegisterAccess ∧
      (setRegisterAt s r v).lastErrorMessage = "Invalid register index: " ++ decStr r ∧
      (setRegisterAt s r v).registers = s.registers) ∧
    (∀ (s : Chip8) (r : Nat), 16 ≤ r → getRegisterAt s r = 0) := by
  refine ⟨?_, ?_, ?_⟩
  · intro s r v hr hv
    rw [setRegisterAt, if_neg (by simp [isValidRegisterIndex, REGISTER_COUNT]; omega)]
    rw [getRegisterAt, if_neg (by simp [isValidRegisterIndex, REGISTER_COUNT]; omega)]
    show updf s.registers r (v % 256) r = v
    rw [updf_same]
    omega
  · intro s r v hr
    rw [setRegisterAt, if_pos (by simp [isValidRegisterIndex, REGISTER_COUNT]; omega)]
    exact ⟨rfl, rfl, rfl⟩
  · intro s r hr
    rw [getRegisterAt, if_pos (by simp [isValidRegisterIndex, REGISTER_COUNT]; omega)]

/-- Witness for the register theorem at concrete inputs. -/
theorem register_roundtrip_and_silent_read_witness :
    getRegisterAt (setRegisterAt init 5 0x42) 5 = 0x42 ∧
    (setRegisterAt init 16 0x42).lastError = ErrorCode.InvalidRegisterAccess ∧
    getRegisterAt init 16 = 0 := by
  refine ⟨register_roundtrip_and_silent_read.1 init 5 0x42 (by decide) (by decide),
    (register_roundtrip_and_silent_read.2.1 init 16 0x42 (by decide)).1,
    register_roundtrip_and_silent_read.2.2 init 16 (by decide)⟩

/-- Counterexample to claim C7 as stated: the claim requires the
out-of-range register READ to record `InvalidRegister` in the last-error
slot, but `getRegisterAt` is a `const` method that mutates nothing — reading
register 16 on a clean state returns 0 and the state (hence its error slot)
is exactly the one before the read, still `None`. -/
theorem register_read_records_no_error_counterexample :
    getRegisterAt init 16 = 0 ∧
    init.lastError = ErrorCode.None ∧
    init.lastError ≠ ErrorCode.InvalidRegisterAccess := by
  refine ⟨by decide, by decide, by decide⟩

/-! ### Key-state accessors -/

/-- Claim C8 (amended): a key-state write with key index >= 16 changes no
key flag but is NOT silent — it records an `InvalidRegisterAccess` error
with the offending index in the message (the original claim, following the
spec, said no error is recorded); the key-state read for an index >= 16
returns not-pressed. -/
theorem setKeyState_outOfRange (s : Chip8) (k : Nat) (p : Bool) (hk : 16 ≤ k) :
    (setKeyState s k p).keyboard = s.keyboard ∧
    (setKeyState s k p).lastError = ErrorCode.InvalidRegisterAccess ∧
    (setKeyState s k p).lastErrorMessage = "Invalid key index: " ++ decStr k ∧
    isKeyPressed s k = false := by
  rw [setKeyState, if_pos (by simp [KEYBOARD_SIZE]; omega)]
  refine ⟨rfl, rfl, rfl, ?_⟩
  rw [isKeyPressed, if_pos (by simp [KEYBOARD_SIZE]; omega)]

/-- Witness for the out-of-range key-state theorem at a concrete input. -/
theorem setKeyState_outOfRange_witness :
    (setKeyState init 16 true).keyboard 16 = 0 ∧
    (setKeyState init 16 true).lastError = ErrorCode.InvalidRegisterAccess ∧
    isKeyPressed init 16 = false := by
  have h := setKeyState_outOfRange init 16 true (by decide)
  refine ⟨by rw [h.1]; rfl, h.2.1, h.2.2.2⟩

/-- Counterexample to claim C8 as stated: the claim says a key write with
index >= 16 records no error, but `setKeyState(16, true)` on a clean reset
state leaves the last-error slot holding `InvalidRegisterAccess`, not
`None` (chip8.cpp:196-200 calls `setError`). -/
theorem setKeyState_records_error_counterexample :
    (setKeyState init 16 true).lastError = ErrorCode.InvalidRegisterAccess ∧
    (setKeyState init 16 true).lastError ≠ ErrorCode.None := by
  refine ⟨by decide, by decide⟩

/-! ### Accessor error discipline -/

/-- Claim C6 (amended): the error discipline as actually implemented.
Successful memory/stack/stack-pointer/register writes clear the last-error
slot, but successful program-counter and pixel writes leave it untouched;
every failing accessor WRITE records a specific kind with a diagnostic that
carries the offending value (hexadecimal for `setMemory`, decimal for the
others); out-of-range READS return the defined fallback 0 and — being
`const` — never modify the error slot. -/
theorem accessor_error_discipline :
    (∀ (s : Chip8) (a v : Nat), a < 4096 → (setMemory s a v).lastError = ErrorCode.None) ∧
    (∀ (s : Chip8) (i a : Nat), i < 16 → (setStack s i a).lastError = ErrorCode.None) ∧
    (∀ (s : Chip8) (p : Nat), p ≤ 16 → (setStackPointer s p).lastError = ErrorCode.None) ∧
    (∀ (s : Chip8) (r v : Nat), r < 16 → (setRegisterAt s r v).lastError = ErrorCode.None) ∧
    (∀ (s : Chip8) (a : Nat), a < 4096 →
      (setProgramCounter s a).programCounter = a ∧
      (setProgramCounter s a).lastError = s.lastError) ∧
    (∀ (s : Chip8) (x y v : Nat), x < 64 → y < 32 →
      (setPixel s x y v).frameBuffer (y * 64 + x) = v % 256 ∧
      (setPixel s x y v).lastError = s.lastError) ∧
    (∀ (s : Chip8) (a v : Nat), 4096 ≤ a →
      (setMemory s a v).lastError = ErrorCode.InvalidMemoryAccess ∧
      (setMemory s a v).lastErrorMessage = "Invalid memory address: " ++ formatHex a) ∧
    (∀ (s : Chip8) (a : Nat), 4096 ≤ a →
      (setProgramCounter s a).lastError = ErrorCode.InvalidMemoryAccess ∧
      (setProgramCounter s a).lastErrorMessage =
        "Invalid program counter address: " ++ decStr a) ∧
    (∀ (s : Chip8) (i a : Nat), 16 ≤ i →
      (setStack s i a).lastError = ErrorCode.StackOverflow ∧
      (setStack s i a).lastErrorMessage = "Stack index out of bounds: " ++ decStr i) ∧
    (∀ (s : Chip8) (p : Nat), 16 < p →
      (setStackPointer s p).lastError = ErrorCode.StackOverflow ∧
      (setStackPointer s p).lastErrorMessage = "Stack pointer out of bounds: " ++ decStr p) ∧
    (∀ (s : Chip8) (r v : Nat), 16 ≤ r →
      (setRegisterAt s r v).lastError = ErrorCode.InvalidRegisterAccess ∧
      (setRegisterAt s r v).lastErrorMessage = "Invalid register index: " ++ decStr r) ∧
    (∀ (s : Chip8) (x y v : Nat), 64 ≤ x ∨ 32 ≤ y →
      (setPixel s x y v).lastError = ErrorCode.InvalidMemoryAccess ∧
      (setPixel s x y v).lastErrorMessage =
        "Pixel coordinates out of bounds: (" ++ decStr x ++ ", " ++ decStr y ++ ")") ∧
    (∀ (s : Chip8) (a : Nat), 4096 ≤ a → getMemoryAt s a = 0) ∧
    (∀ (s : Chip8) (i : Nat), 16 ≤ i → getStackAt s i = 0) ∧
    (∀ (s : Chip8) (r : Nat), 16 ≤ r → getRegisterAt s r = 0) ∧
    (∀ (s : Chip8) (x y : Nat), 64 ≤ x ∨ 32 ≤ y → getPixel s x y = 0) := by
  repeat' constructor
  · intro s a v h
    rw [setMemory, if_neg (by simp [isValidMemoryAddress, MEMORY_SIZE]; omega)]
    rfl
  · intro s i a h
    rw [setStack, if_neg (by simp [STACK_SIZE]; omega)]
    rfl
  · intro s p h
    rw [setStackPointer, if_neg (by simp [STACK_SIZE]; omega)]
    rfl
  · intro s r v h
    rw [setRegisterAt, if_neg (by simp [isValidRegisterIndex, REGISTER_COUNT]; omega)]
    rfl
  · intro s a h
    rw [setProgramCounter, if_neg (by simp [isValidMemoryAddress, MEMORY_SIZE]; omega)]
    exact ⟨rfl, rfl⟩
  · intro s x y v hx hy
    rw [setPixel, if_neg (by simp [DISPLAY_WIDTH, DISPLAY_HEIGHT]; omega)]
    refine ⟨?_, rfl⟩
    show updf s.frameBuffer (y * DISPLAY_WIDTH + x) (v % 256) (y * 64 + x) = v % 256
    rw [show y * 64 + x = y * DISPLAY_WIDTH + x from rfl, updf_same]
  · intro s a v h
    rw [setMemory, if_pos (by simp [isValidMemoryAddress, MEMORY_SIZE]; omega)]
    exact ⟨rfl, rfl⟩
  · intro s a h
    rw [setProgramCounter, if_pos (by simp [isValidMemoryAddress, MEMORY_SIZE]; omega)]
    exact ⟨rfl, rfl⟩
  · intro s i a h
    rw [setStack, if_pos (by simp [STACK_SIZE]; omega)]
    exact ⟨rfl, rfl⟩
  · intro s p h
    rw [setStackPointer, if_pos (by simp [STACK_SIZE]; omega)]
    exact ⟨rfl, rfl⟩
  · intro s r v h
    rw [setRegisterAt, if_pos (by simp [isValidRegisterIndex, REGISTER_COUNT]; omega)]
    exact ⟨rfl, rfl⟩
  · intro s x y v h
    rw [setPixel, if_pos (by simp only [DISPLAY_WIDTH, DISPLAY_HEIGHT]; omega)]
    exact ⟨rfl, rfl⟩
  · intro s a h
    rw [getMemoryAt, if_pos (by simp [isValidMemoryAddress, MEMORY_SIZE]; omega)]
  · intro s i h
    rw [getStackAt, if_pos (by simp [STACK_SIZE]; omega)]
  · intro s r h
    rw [getRegisterAt, if_pos (by simp [isValidRegisterIndex, REGISTER_COUNT]; omega)]
  · intro s x y h
    rw [getPixel, if_pos (by simp only [DISPLAY_WIDTH, DISPLAY_HEIGHT]; omega)]

/-- Witness for the error-discipline theorem: one concrete instance per
conjunct. -/
theorem accessor_error_discipline_witness :
    (setMemory init 0 1).lastError = ErrorCode.None ∧
    (setStack init 0 2).lastError = ErrorCode.None ∧
    (setStackPointer init 16).lastError = ErrorCode.None ∧
    (setRegisterAt init 0 3).lastError = ErrorCode.None ∧
    (setProgramCounter init 0x300).lastError = init.lastError ∧
    (setPixel init 1 1 1).lastError = init.lastError ∧
    (setMemory init 4096 1).lastErrorMessage = "Invalid memory address: " ++ formatHex 4096 ∧
    (setProgramCounter init 4096).lastError = ErrorCode.InvalidMemoryAccess ∧
    (setStack init 16 2).lastError = ErrorCode.StackOverflow ∧
    (setStackPointer init 17).lastError = ErrorCode.StackOverflow ∧
    (setRegisterAt init 16 3).lastError = ErrorCode.InvalidRegisterAccess ∧
    (setPixel init 64 0 1).lastError = ErrorCode.InvalidMemoryAccess ∧
    getMemoryAt init 4096 = 0 ∧
    getStackAt init 16 = 0 ∧
    getRegisterAt init 16 = 0 ∧
    getPixel init 64 0 = 0 := by
  obtain ⟨hw1, hw2, hw3, hw4, hw5, hw6, hw7, hw8, hw9, hw10, hw11, hw12, hw13, hw14,
    hw15, hw16⟩ := accessor_error_discipline
  exact ⟨hw1 init 0 1 (by decide),
    hw2 init 0 2 (by decide),
    hw3 init 16 (by decide),
    hw4 init 0 3 (by decide),
    (hw5 init 0x300 (by decide)).2,
    (hw6 init 1 1 1 (by decide) (by decide)).2,
    (hw7 init 4096 1 (by decide)).2,
    (hw8 init 4096 (by decide)).1,
    (hw9 init 16 2 (by decide)).1,
    (hw10 init 17 (by decide)).1,
    (hw11 init 16 3 (by decide)).1,
    (hw12 init 64 0 1 (Or.inl (by decide))).1,
    hw13 init 4096 (by decide),
    hw14 init 16 (by decide),
    hw15 init 16 (by decide),
    hw16 init 64 0 (Or.inl (by decide))⟩

/-- Counterexample to claim C6 as stated: after a failing memory write left
`InvalidMemoryAccess` in the error slot, a SUCCESSFUL program-counter write
(to 0x300) does not clear it — the slot still holds `InvalidMemoryAccess`,
contradicting "every successful accessor call clears the last-error slot"
(chip8.cpp:221-228 has no `clearError`). -/
theorem successful_setProgramCounter_keeps_error_counterexample :
    (setProgramCounter (setMemory init 4096 0) 0x300).programCounter = 0x300 ∧
    (setProgramCounter (setMemory init 4096 0) 0x300).lastError =
      ErrorCode.InvalidMemoryAccess ∧
    (setProgramCounter (setMemory init 4096 0) 0x300).lastError ≠ ErrorCode.None := by
  refine ⟨by decide, by decide, by decide⟩

/-! ### Sprite-draw out-of-bounds behaviour -/

theorem drawRows_oob (memory : Nat → Nat) (indexRegister xPos yPos : Nat) :
    ∀ (remaining row : Nat) (st : (Nat → Nat) × Nat),
      (∃ r, row ≤ r ∧ r < row + remaining ∧ 4096 ≤ indexRegister + r) →
      (drawRows memory indexRegister xPos yPos remaining row st).2 = true := by
  intro remaining
  induction remaining with
  | zero =>
      intro row st h
      obtain ⟨r, h1, h2, h3⟩ := h
      omega
  | succ n ih =>
      intro row st h
      obtain ⟨r, h1, h2, h3⟩ := h
      rw [drawRows]
      by_cases hrow : MEMORY_SIZE ≤ indexRegister + row
      · rw [if_pos hrow]
      · rw [if_neg hrow]
        apply ih
        refine ⟨r, ?_, by omega, h3⟩
        have : r ≠ row := by
          intro hcontra
          apply hrow
          simp only [MEMORY_SIZE]
          omega
        omega

theorem handleOpcodeDxxx_oob (t : Chip8)
    (hoob : (drawRows t.memory t.indexRegister (t.registers (t.opcode / 256 % 16))
        (t.registers (t.opcode / 16 % 16)) (t.opcode % 16) 0 (t.frameBuffer, 0)).2 = true) :
    (handleOpcodeDxxx t).lastError = ErrorCode.InvalidMemoryAccess ∧
    (handleOpcodeDxxx t).lastErrorMessage = "Sprite data out of memory bounds" ∧
    (handleOpcodeDxxx t).drawFlag = t.drawFlag ∧
    (handleOpcodeDxxx t).programCounter = t.programCounter := by
  simp only [handleOpcodeDxxx]
  rw [if_neg (by simp [decoded_x_valid, decoded_y_valid]), if_pos hoob]
  exact ⟨rfl, rfl, rfl, rfl⟩

/-- Claim C5 (amended): when a `0xDXYN` draw would read some sprite byte
from an address at or beyond 4096, the step stops the draw (rows already
processed stay XORed in), records `InvalidAddress` (the
`InvalidMemoryAccess` kind), and does NOT set the redraw flag — the C++
returns before the `drawFlag_ = true` line, leaving the flag as it was (the
original claim said the flag is set regardless).  The PC is not advanced
either. -/
theorem draw_outOfBounds_stops_without_redraw (rnd : Nat) (s : Chip8)
    (hpc : s.programCounter < 4095)
    (ha : s.memory s.programCounter < 256)
    (hb : s.memory (s.programCounter + 1) < 256)
    (hfam : s.memory s.programCounter / 16 = 13)
    (hoob : ∃ r, r < s.memory (s.programCounter + 1) % 16 ∧ 4096 ≤ s.indexRegister + r) :
    (emulateCycle rnd s).lastError = ErrorCode.InvalidMemoryAccess ∧
    (emulateCycle rnd s).lastErrorMessage = "Sprite data out of memory bounds" ∧
    (emulateCycle rnd s).drawFlag = s.drawFlag ∧
    (emulateCycle rnd s).programCounter = s.programCounter := by
  have hguard : s.programCounter < MEMORY_SIZE - 1 := by
    simp only [MEMORY_SIZE]; omega
  have hcyc := emulateCycle_eq rnd s hguard
  have hopc : ({ clearError s with opcode := fetchWord s } : Chip8).opcode / 4096 % 16 = 13 := by
    show fetchWord s / 4096 % 16 = 13
    unfold fetchWord
    rw [decode_fam _ _ ha hb, hfam]
  rw [execFamilies_13 rnd _ hopc] at hcyc
  have hrows : (drawRows
      ({ clearError s with opcode := fetchWord s } : Chip8).memory
      ({ clearError s with opcode := fetchWord s } : Chip8).indexRegister
      (({ clearError s with opcode := fetchWord s } : Chip8).registers
        (({ clearError s with opcode := fetchWord s } : Chip8).opcode / 256 % 16))
      (({ clearError s with opcode := fetchWord s } : Chip8).registers
        (({ clearError s with opcode := fetchWord s } : Chip8).opcode / 16 % 16))
      (({ clearError s with opcode := fetchWord s } : Chip8).opcode % 16) 0
      (({ clearError s with opcode := fetchWord s } : Chip8).frameBuffer, 0)).2 = true := by
    apply drawRows_oob
    obtain ⟨r, hr1, hr2⟩ := hoob
    refine ⟨r, by omega, ?_, ?_⟩
    · show r < 0 + fetchWord s % 16
      unfold fetchWord
      rw [decode_n]
      omega
    · exact hr2
  have hD := handleOpcodeDxxx_oob _ hrows
  rw [hcyc]
  repeat' constructor
  · rw [tickTimers_lastError, hD.1]
  · rw [tickTimers_lastErrorMessage, hD.2.1]
  · rw [tickTimers_drawFlag, hD.2.2.1]
    rfl
  · rw [tickTimers_programCounter, hD.2.2.2]
    rfl

/-- Witness for the out-of-bounds draw theorem: `0xD011` at 0x200 with the
index register at 4096 records the error and leaves the redraw flag
cleared. -/
theorem draw_outOfBounds_stops_without_redraw_witness :
    (emulateCycle 0 { init with
        memory := updf (updf init.memory 0x200 0xD0) 0x201 0x11,
        indexRegister := 4096 }).lastError = ErrorCode.InvalidMemoryAccess ∧
    (emulateCycle 0 { init with
        memory := updf (updf init.memory 0x200 0xD0) 0x201 0x11,
        indexRegister := 4096 }).drawFlag = false := by
  have h := draw_outOfBounds_stops_without_redraw 0
    { init with
      memory := updf (updf init.memory 0x200 0xD0) 0x201 0x11,
      indexRegister := 4096 }
    (by decide) (by decide) (by decide) (by rfl) ⟨0, by decide, by decide⟩
  exact ⟨h.1, by rw [h.2.2.1]; rfl⟩

/-- Counterexample to claim C5 as stated: executing `0xD012` at 0x200 with
the index register at 4095 reads row 0 from address 4095, then hits the
bound at row 1 — the error is recorded but the redraw flag, false before
the step, is still false afterwards, contradicting "nevertheless sets the
redraw flag". -/
theorem draw_outOfBounds_no_redraw_counterexample :
    (emulateCycle 0 { init with
        memory := updf (updf (updf init.memory 0x200 0xD0) 0x201 0x12) 4095 0xFF,
        indexRegister := 4095 }).lastError = ErrorCode.InvalidMemoryAccess ∧
    (emulateCycle 0 { init with
        memory := updf (updf (updf init.memory 0x200 0xD0) 0x201 0x12) 4095 0xFF,
        indexRegister := 4095 }).drawFlag = false ∧
    (emulateCycle 0 { init with
        memory := updf (updf (updf init.memory 0x200 0xD0) 0x201 0x12) 4095 0xFF,
        indexRegister := 4095 }).drawFlag ≠ true := by
  refine ⟨by decide, by decide, by decide⟩

/-! ### Unknown-opcode dispatch -/

theorem handleOpcode0xxx_default (t : Chip8)
    (h0 : t.opcode % 16 ≠ 0x0) (hE : t.opcode % 16 ≠ 0xE) :
    handleOpcode0xxx t =
      setError t ErrorCode.UnknownOpcode ("Unknown 0x0xxx opcode: 0x" ++ decStr t.opcode) := by
  simp only [handleOpcode0xxx]
  rw [if_neg h0, if_neg hE]

theorem handleOpcode8xxx_default (t : Chip8)
    (h8 : 8 ≤ t.opcode % 16) (h14 : t.opcode % 16 ≠ 0xE) :
    handleOpcode8xxx t =
      setError t ErrorCode.UnknownOpcode ("Unknown 0x8xxx opcode: 0x" ++ decStr t.opcode) := by
  simp only [handleOpcode8xxx]
  rw [if_neg (by simp [decoded_x_valid, decoded_y_valid])]
  set n := t.opcode % 16 with hn
  have hlt : n < 16 := by omega
  interval_cases n <;> first | rfl | omega

theorem handleOpcodeExxx_default (t : Chip8)
    (hE : t.opcode % 16 ≠ 0xE) (h1 : t.opcode % 16 ≠ 0x1) :
    handleOpcodeExxx t =
      setError t ErrorCode.UnknownOpcode ("Unknown 0xExxx opcode: 0x" ++ decStr t.opcode) := by
  simp only [handleOpcodeExxx]
  rw [if_neg (by simp [decoded_x_valid]), if_neg hE, if_neg h1]

theorem handleOpcodeFxxx_default (t : Chip8)
    (h07 : t.opcode % 256 ≠ 0x07) (h0A : t.opcode % 256 ≠ 0x0A)
    (h15 : t.opcode % 256 ≠ 0x15) (h18 : t.opcode % 256 ≠ 0x18)
    (h1E : t.opcode % 256 ≠ 0x1E) (h29 : t.opcode % 256 ≠ 0x29)
    (h33 : t.opcode % 256 ≠ 0x33) (h55 : t.opcode % 256 ≠ 0x55)
    (h65 : t.opcode % 256 ≠ 0x65) :
    handleOpcodeFxxx t =
      setError t ErrorCode.UnknownOpcode ("Unknown 0xFxxx opcode: 0x" ++ decStr t.opcode) := by
  simp only [handleOpcodeFxxx]
  rw [if_neg (by simp [decoded_x_valid]), if_neg h07, if_neg h0A, if_neg h15, if_neg h18,
    if_neg h1E, if_neg h29, if_neg h33, if_neg h55, if_neg h65]

/-- A step that ends in `setError UnknownOpcode` inside a handler changes
nothing but the error slot, the transient opcode latch and the timer tick. -/
theorem step_unknown_facts (rnd : Nat) (s : Chip8) (msg : String)
    (hcyc : emulateCycle rnd s =
      tickTimers (setError { clearError s with opcode := fetchWord s }
        ErrorCode.UnknownOpcode msg)) :
    (emulateCycle rnd s).lastError = ErrorCode.UnknownOpcode ∧
    (emulateCycle rnd s).programCounter = s.programCounter ∧
    (emulateCycle rnd s).memory = s.memory ∧
    (emulateCycle rnd s).registers = s.registers ∧
    (emulateCycle rnd s).stack = s.stack ∧
    (emulateCycle rnd s).stackPointer = s.stackPointer ∧
    (emulateCycle rnd s).frameBuffer = s.frameBuffer ∧
    (emulateCycle rnd s).drawFlag = s.drawFlag ∧
    (emulateCycle rnd s).keyboard = s.keyboard := by
  rw [hcyc]
  repeat' constructor
  all_goals simp

/-- Claim C2 (amended): for every instruction word that falls into one of
the code's dispatch DEFAULT branches — a family-0x0 word whose LOW NIBBLE is
neither 0x0 nor 0xE, a family-0x8 word with low nibble in 0x8..0xD or 0xF, a
family-0xE word with low nibble neither 0xE nor 0x1, or a family-0xF word
whose low byte is none of 07/0A/15/18/1E/29/33/55/65 — one step records
`UnknownOpcode` and leaves the PC, memory, registers, stack, display, draw
flag and keyboard unchanged.  (The original claim also called `0x5XYk` with
`k /= 0` and any family-0 word other than 0x00E0/0x00EE unknown; the code
never inspects the low nibble of a `0x5XYk` word and dispatches family 0 on
the low nibble alone, so those execute normally — see the
counterexample.) -/
theorem unknownOpcode_stops_without_mutation (rnd : Nat) (s : Chip8)
    (hpc : s.programCounter < 4095)
    (ha : s.memory s.programCounter < 256)
    (hb : s.memory (s.programCounter + 1) < 256)
    (hunk :
      (s.memory s.programCounter / 16 = 0x0 ∧
        s.memory (s.programCounter + 1) % 16 ≠ 0x0 ∧
        s.memory (s.programCounter + 1) % 16 ≠ 0xE) ∨
      (s.memory s.programCounter / 16 = 0x8 ∧
        8 ≤ s.memory (s.programCounter + 1) % 16 ∧
        s.memory (s.programCounter + 1) % 16 ≠ 0xE) ∨
      (s.memory s.programCounter / 16 = 0xE ∧
        s.memory (s.programCounter + 1) % 16 ≠ 0xE ∧
        s.memory (s.programCounter + 1) % 16 ≠ 0x1) ∨
      (s.memory s.programCounter / 16 = 0xF ∧
        s.memory (s.programCounter + 1) ≠ 0x07 ∧ s.memory (s.programCounter + 1) ≠ 0x0A ∧
        s.memory (s.programCounter + 1) ≠ 0x15 ∧ s.memory (s.programCounter + 1) ≠ 0x18 ∧
        s.memory (s.programCounter + 1) ≠ 0x1E ∧ s.memory (s.programCounter + 1) ≠ 0x29 ∧
        s.memory (s.programCounter + 1) ≠ 0x33 ∧ s.memory (s.programCounter + 1) ≠ 0x55 ∧
        s.memory (s.programCounter + 1) ≠ 0x65)) :
    (emulateCycle rnd s).lastError = ErrorCode.UnknownOpcode ∧
    (emulateCycle rnd s).programCounter = s.programCounter ∧
    (emulateCycle rnd s).memory = s.memory ∧
    (emulateCycle rnd s).registers = s.registers ∧
    (emulateCycle rnd s).stack = s.stack ∧
    (emulateCycle rnd s).stackPointer = s.stackPointer ∧
    (emulateCycle rnd s).frameBuffer = s.frameBuffer ∧
    (emulateCycle rnd s).drawFlag = s.drawFlag ∧
    (emulateCycle rnd s).keyboard = s.keyboard := by
  have hguard : s.programCounter < MEMORY_SIZE - 1 := by
    simp only [MEMORY_SIZE]; omega
  have hcyc := emulateCycle_eq rnd s hguard
  have hsubeq : ({ clearError s with opcode := fetchWord s } : Chip8).opcode % 16 =
      s.memory (s.programCounter + 1) % 16 := by
    show fetchWord s % 16 = _
    unfold fetchWord
    rw [decode_n]
  have hsub2eq : ({ clearError s with opcode := fetchWord s } : Chip8).opcode % 256 =
      s.memory (s.programCounter + 1) := by
    show fetchWord s % 256 = _
    unfold fetchWord
    rw [decode_nn _ _ hb]
  rcases hunk with ⟨hfam, hs1, hs2⟩ | ⟨hfam, hs1, hs2⟩ | ⟨hfam, hs1, hs2⟩ |
    ⟨hfam, h07, h0A, h15, h18, h1E, h29, h33, h55, h65⟩
  · have hopc : ({ clearError s with opcode := fetchWord s } : Chip8).opcode / 4096 % 16 = 0 := by
      show fetchWord s / 4096 % 16 = 0
      unfold fetchWord
      rw [decode_fam _ _ ha hb, hfam]
    rw [execFamilies_0 rnd _ hopc] at hcyc
    rw [handleOpcode0xxx_default _ (by rw [hsubeq]; exact hs1) (by rw [hsubeq]; exact hs2)]
      at hcyc
    exact step_unknown_facts rnd s _ hcyc
  · have hopc : ({ clearError s with opcode := fetchWord s } : Chip8).opcode / 4096 % 16 = 8 := by
      show fetchWord s / 4096 % 16 = 8
      unfold fetchWord
      rw [decode_fam _ _ ha hb, hfam]
    rw [execFamilies_8 rnd _ hopc] at hcyc
    rw [handleOpcode8xxx_default _ (by rw [hsubeq]; exact hs1) (by rw [hsubeq]; exact hs2)]
      at hcyc
    exact step_unknown_facts rnd s _ hcyc
  · have hopc :
        ({ clearError s with opcode := fetchWord s } : Chip8).opcode / 4096 % 16 = 14 := by
      show fetchWord s / 4096 % 16 = 14
      unfold fetchWord
      rw [decode_fam _ _ ha hb, hfam]
    rw [execFamilies_14 rnd _ hopc] at hcyc
    rw [handleOpcodeExxx_default _ (by rw [hsubeq]; exact hs1) (by rw [hsubeq]; exact hs2)]
      at hcyc
    exact step_unknown_facts rnd s _ hcyc
  · have hopc :
        ({ clearError s with opcode := fetchWord s } : Chip8).opcode / 4096 % 16 = 15 := by
      show fetchWord s / 4096 % 16 = 15
      unfold fetchWord
      rw [decode_fam _ _ ha hb, hfam]
    rw [execFamilies_15 rnd _ hopc] at hcyc
    rw [handleOpcodeFxxx_default _
      (by rw [hsub2eq]; exact h07) (by rw [hsub2eq]; exact h0A) (by rw [hsub2eq]; exact h15)
      (by rw [hsub2eq]; exact h18) (by rw [hsub2eq]; exact h1E) (by rw [hsub2eq]; exact h29)
      (by rw [hsub2eq]; exact h33) (by rw [hsub2eq]; exact h55) (by rw [hsub2eq]; exact h65)]
      at hcyc
    exact step_unknown_facts rnd s _ hcyc

/-- Witness for the unknown-opcode theorem: `0x8008` (an undefined 0x8
sub-opcode) at 0x200 records `UnknownOpcode` and leaves the PC at 0x200. -/
theorem unknownOpcode_stops_without_mutation_witness :
    (emulateCycle 0 { init with
        memory := updf (updf init.memory 0x200 0x80) 0x201 0x08 }).lastError =
      ErrorCode.UnknownOpcode ∧
    (emulateCycle 0 { init with
        memory := updf (updf init.memory 0x200 0x80) 0x201 0x08 }).programCounter = 0x200 := by
  have h := unknownOpcode_stops_without_mutation 0
    { init with memory := updf (updf init.memory 0x200 0x80) 0x201 0x08 }
    (by decide) (by decide) (by decide)
    (Or.inr (Or.inl ⟨by decide, by decide, by decide⟩))
  exact ⟨h.1, by rw [h.2.1]; rfl⟩

/-- Counterexample to claim C2 as stated: the claim names `0x5XYk` with
`k /= 0` as an unknown opcode that must record `UnknownOpcode` and leave the
PC unchanged, but the code (chip8.cpp:395-411) never looks at the low
nibble: executing `0x5123` from reset (V1 = V2 = 0, equal) performs the
skip, advancing the PC from 0x200 to 0x204 with no error recorded. -/
theorem skip5xxx_ignores_low_nibble_counterexample :
    (emulateCycle 0 { init with
        memory := updf (updf init.memory 0x200 0x51) 0x201 0x23 }).lastError =
      ErrorCode.None ∧
    (emulateCycle 0 { init with
        memory := updf (updf init.memory 0x200 0x51) 0x201 0x23 }).lastError ≠
      ErrorCode.UnknownOpcode ∧
    (emulateCycle 0 { init with
        memory := updf (updf init.memory 0x200 0x51) 0x201 0x23 }).programCounter = 0x204 := by
  refine ⟨by decide, by decide, by decide⟩

/-! ### Frame-buffer discipline of the handlers -/

theorem handleOpcode1xxx_frameBuffer (s : Chip8) :
    (handleOpcode1xxx s).frameBuffer = s.frameBuffer := by
  simp only [handleOpcode1xxx]; split_ifs <;> rfl

theorem handleOpcode2xxx_frameBuffer (s : Chip8) :
    (handleOpcode2xxx s).frameBuffer = s.frameBuffer := by
  simp only [handleOpcode2xxx]; split_ifs <;> rfl

theorem handleOpcode3xxx_frameBuffer (s : Chip8) :
    (handleOpcode3xxx s).frameBuffer = s.frameBuffer := by
  simp only [handleOpcode3xxx]; split_ifs <;> rfl

theorem handleOpcode4xxx_frameBuffer (s : Chip8) :
    (handleOpcode4xxx s).frameBuffer = s.frameBuffer := by
  simp only [handleOpcode4xxx]; split_ifs <;> rfl

theorem handleOpcode5xxx_frameBuffer (s : Chip8) :
    (handleOpcode5xxx s).frameBuffer = s.frameBuffer := by
  simp only [handleOpcode5xxx]; split_ifs <;> rfl

theorem handleOpcode6xxx_frameBuffer (s : Chip8) :
    (handleOpcode6xxx s).frameBuffer = s.frameBuffer := by
  simp only [handleOpcode6xxx]; split_ifs <;> rfl

theorem handleOpcode7xxx_frameBuffer (s : Chip8) :
    (handleOpcode7xxx s).frameBuffer = s.frameBuffer := by
  simp only [handleOpcode7xxx]; split_ifs <;> rfl

theorem handleOpcode8xxx_frameBuffer (s : Chip8) :
    (handleOpcode8xxx s).frameBuffer = s.frameBuffer := by
  simp only [handleOpcode8xxx]
  rw [if_neg (by simp [decoded_x_valid, decoded_y_valid])]
  set n := s.opcode % 16 with hn
  have hlt : n < 16 := by omega
  interval_cases n <;> norm_num

theorem handleOpcode9xxx_frameBuffer (s : Chip8) :
    (handleOpcode9xxx s).frameBuffer = s.frameBuffer := by
  simp only [handleOpcode9xxx]; split_ifs <;> rfl

theorem handleOpcodeAxxx_frameBuffer (s : Chip8) :
    (handleOpcodeAxxx s).frameBuffer = s.frameBuffer := by
  simp only [handleOpcodeAxxx]; split_ifs <;> rfl

theorem handleOpcodeBxxx_frameBuffer (s : Chip8) :
    (handleOpcodeBxxx s).frameBuffer = s.frameBuffer := by
  simp only [handleOpcodeBxxx]; split_ifs <;> rfl

theorem handleOpcodeExxx_frameBuffer (s : Chip8) :
    (handleOpcodeExxx s).frameBuffer = s.frameBuffer := by
  simp only [handleOpcodeExxx]; split_ifs <;> rfl

theorem handleOpcodeCxxx_frameBuffer (rnd : Nat) (s : Chip8) :
    (handleOpcodeCxxx rnd s).frameBuffer = s.frameBuffer := by
  simp only [handleOpcodeCxxx]; split_ifs <;> rfl

theorem handleOpcodeFxxx_frameBuffer (s : Chip8) :
    (handleOpcodeFxxx s).frameBuffer = s.frameBuffer := by
  simp only [handleOpcodeFxxx]
  rw [if_neg (by simp [decoded_x_valid])]
  by_cases h07 : s.opcode % 256 = 0x07
  · rw [if_pos h07]
  · rw [if_neg h07]
    by_cases h0A : s.opcode % 256 = 0x0A
    · rw [if_pos h0A]
      split <;> rfl
    · rw [if_neg h0A]
      by_cases h15 : s.opcode % 256 = 0x15
      · rw [if_pos h15]
      · rw [if_neg h15]
        by_cases h18 : s.opcode % 256 = 0x18
        · rw [if_pos h18]
        · rw [if_neg h18]
          by_cases h1E : s.opcode % 256 = 0x1E
          · rw [if_pos h1E]
          · rw [if_neg h1E]
            by_cases h29 : s.opcode % 256 = 0x29
            · rw [if_pos h29]
              split <;> rfl
            · rw [if_neg h29]
              by_cases h33 : s.opcode % 256 = 0x33
              · rw [if_pos h33]
                split <;> rfl
              · rw [if_neg h33]
                by_cases h55 : s.opcode % 256 = 0x55
                · rw [if_pos h55]
                  split <;> rfl
                · rw [if_neg h55]
                  by_cases h65 : s.opcode % 256 = 0x65
                  · rw [if_pos h65]
                    split <;> rfl
                  · rw [if_neg h65]
                    rfl

theorem handleOpcode0xxx_cls (s : Chip8) (h : s.opcode % 16 = 0x0) :
    (handleOpcode0xxx s).frameBuffer = fun _ => 0 := by
  simp only [handleOpcode0xxx]; rw [if_pos h]

theorem handleOpcode0xxx_frameBuffer (s : Chip8) (h : s.opcode % 16 ≠ 0x0) :
    (handleOpcode0xxx s).frameBuffer = s.frameBuffer := by
  simp only [handleOpcode0xxx]; rw [if_neg h]; split_ifs <;> rfl

theorem handleOpcodeDxxx_frameBuffer (s : Chip8) :
    (handleOpcodeDxxx s).frameBuffer =
      (drawRows s.memory s.indexRegister (s.registers (s.opcode / 256 % 16))
        (s.registers (s.opcode / 16 % 16)) (s.opcode % 16) 0 (s.frameBuffer, 0)).1.1 := by
  simp only [handleOpcodeDxxx]
  rw [if_neg (by simp [decoded_x_valid, decoded_y_valid])]
  split_ifs <;> rfl

/-! ### XOR draw semantics and the display invariant -/

theorem foldl_preserves {α β : Type} (P : α → Prop) (f : α → β → α)
    (hf : ∀ a b, P a → P (f a b)) :
    ∀ (l : List β) (a : α), P a → P (l.foldl f a)
  | [], _, ha => ha
  | b :: l, a, ha => foldl_preserves P f hf l (f a b) (hf a b ha)

theorem xor_one_xor_one (a : Nat) : Nat.xor (Nat.xor a 1) 1 = a := by
  show a ^^^ 1 ^^^ 1 = a
  rw [Nat.xor_assoc, Nat.xor_self, Nat.xor_zero]

theorem drawPixel_cells (fb0 : Nat → Nat) (spriteRow xPos yPos row : Nat)
    (st : (Nat → Nat) × Nat) (col : Nat)
    (h : ∀ i, st.1 i = fb0 i ∨ st.1 i = Nat.xor (fb0 i) 1) :
    ∀ i, (drawPixel spriteRow xPos yPos row st col).1 i = fb0 i ∨
         (drawPixel spriteRow xPos yPos row st col).1 i = Nat.xor (fb0 i) 1 := by
  unfold drawPixel
  split_ifs with hc
  · dsimp only
    intro i
    by_cases hi :
        i = (yPos + row) % DISPLAY_HEIGHT * DISPLAY_WIDTH + (xPos + col) % DISPLAY_WIDTH
    · subst hi
      rw [updf_same]
      rcases h _ with hcell | hcell
      · rw [hcell]
        exact Or.inr rfl
      · rw [hcell, xor_one_xor_one]
        exact Or.inl rfl
    · rw [updf_ne _ _ _ _ hi]
      exact h i
  · exact h

/-- Each cell after one sprite row is either untouched or XORed once more
with 1, relative to a fixed reference buffer. -/
theorem drawRowPixels_cells (fb0 : Nat → Nat) (spriteRow xPos yPos row : Nat)
    (st : (Nat → Nat) × Nat)
    (h : ∀ i, st.1 i = fb0 i ∨ st.1 i = Nat.xor (fb0 i) 1) :
    ∀ i, (drawRowPixels spriteRow xPos yPos row st).1 i = fb0 i ∨
         (drawRowPixels spriteRow xPos yPos row st).1 i = Nat.xor (fb0 i) 1 := by
  unfold drawRowPixels
  exact foldl_preserves
    (fun st => ∀ i, st.1 i = fb0 i ∨ st.1 i = Nat.xor (fb0 i) 1)
    (drawPixel spriteRow xPos yPos row)
    (fun a c ha => drawPixel_cells fb0 spriteRow xPos yPos row a c ha)
    (List.range 8) st h

/-- Same statement, propagated through the whole row loop. -/
theorem drawRows_cells (memory : Nat → Nat) (indexRegister xPos yPos : Nat) :
    ∀ (remaining row : Nat) (st : (Nat → Nat) × Nat) (fb0 : Nat → Nat),
      (∀ i, st.1 i = fb0 i ∨ st.1 i = Nat.xor (fb0 i) 1) →
      ∀ i, (drawRows memory indexRegister xPos yPos remaining row st).1.1 i = fb0 i ∨
        (drawRows memory indexRegister xPos yPos remaining row st).1.1 i =
          Nat.xor (fb0 i) 1 := by
  intro remaining
  induction remaining with
  | zero =>
      intro row st fb0 h i
      exact h i
  | succ n ih =>
      intro row st fb0 h i
      rw [drawRows]
      by_cases hb : MEMORY_SIZE ≤ indexRegister + row
      · rw [if_pos hb]
        exact h i
      · rw [if_neg hb]
        exact ih (row + 1) _ fb0 (drawRowPixels_cells fb0 _ _ _ _ _ h) i

/-- Master shape lemma: one step either leaves the display untouched, is a
clear-screen (family 0, low nibble 0) zeroing the whole display, or is a
draw (family 0xD) in which every cell is either untouched or XORed with
1. -/
theorem emulateCycle_frameBuffer_shape (rnd : Nat) (s : Chip8) :
    (emulateCycle rnd s).frameBuffer = s.frameBuffer ∨
    ((fetchWord s / 4096 % 16 = 0 ∧ fetchWord s % 16 = 0) ∧
      (emulateCycle rnd s).frameBuffer = fun _ => 0) ∨
    (fetchWord s / 4096 % 16 = 13 ∧
      ∀ i, (emulateCycle rnd s).frameBuffer i = s.frameBuffer i ∨
        (emulateCycle rnd s).frameBuffer i = Nat.xor (s.frameBuffer i) 1) := by
  by_cases hpc : MEMORY_SIZE - 1 ≤ s.programCounter
  · left
    unfold emulateCycle
    dsimp only
    rw [if_pos (show MEMORY_SIZE - 1 ≤ (clearError s).programCounter from hpc)]
    rfl
  · have hpc' : s.programCounter < MEMORY_SIZE - 1 := by omega
    have hcyc := emulateCycle_eq rnd s hpc'
    set t := ({ clearError s with opcode := fetchWord s } : Chip8) with ht
    have htop : t.opcode = fetchWord s := rfl
    have htfb : t.frameBuffer = s.frameBuffer := rfl
    set k := fetchWord s / 4096 % 16 with hk
    have hk16 : k < 16 := by omega
    interval_cases k
    · by_cases hsub : fetchWord s % 16 = 0
      · refine Or.inr (Or.inl ⟨⟨by omega, hsub⟩, ?_⟩)
        rw [hcyc, execFamilies_0 rnd t (by rw [htop]; omega), tickTimers_frameBuffer,
          handleOpcode0xxx_cls t (by rw [htop]; exact hsub)]
      · refine Or.inl ?_
        rw [hcyc, execFamilies_0 rnd t (by rw [htop]; omega), tickTimers_frameBuffer,
          handleOpcode0xxx_frameBuffer t (by rw [htop]; exact hsub), htfb]
    · exact Or.inl (by
        rw [hcyc, execFamilies_1 rnd t (by rw [htop]; omega), tickTimers_frameBuffer,
          handleOpcode1xxx_frameBuffer, htfb])
    · exact Or.inl (by
        rw [hcyc, execFamilies_2 rnd t (by rw [htop]; omega), tickTimers_frameBuffer,
          handleOpcode2xxx_frameBuffer, htfb])
    · exact Or.inl (by
        rw [hcyc, execFamilies_3 rnd t (by rw [htop]; omega), tickTimers_frameBuffer,
          handleOpcode3xxx_frameBuffer, htfb])
    · exact Or.inl (by
        rw [hcyc, execFamilies_4 rnd t (by rw [htop]; omega), tickTimers_frameBuffer,
          handleOpcode4xxx_frameBuffer, htfb])
    · exact Or.inl (by
        rw [hcyc, execFamilies_5 rnd t (by rw [htop]; omega), tickTimers_frameBuffer,
          handleOpcode5xxx_frameBuffer, htfb])
    · exact Or.inl (by
        rw [hcyc, execFamilies_6 rnd t (by rw [htop]; omega), tickTimers_frameBuffer,
          handleOpcode6xxx_frameBuffer, htfb])
    · exact Or.inl (by
        rw [hcyc, execFamilies_7 rnd t (by rw [htop]; omega), tickTimers_frameBuffer,
          handleOpcode7xxx_frameBuffer, htfb])
    · exact Or.inl (by
        rw [hcyc, execFamilies_8 rnd t (by rw [htop]; omega), tickTimers_frameBuffer,
          handleOpcode8xxx_frameBuffer, htfb])
    · exact Or.inl (by
        rw [hcyc, execFamilies_9 rnd t (by rw [htop]; omega), tickTimers_frameBuffer,
          handleOpcode9xxx_frameBuffer, htfb])
    · exact Or.inl (by
        rw [hcyc, execFamilies_10 rnd t (by rw [htop]; omega), tickTimers_frameBuffer,
          handleOpcodeAxxx_frameBuffer, htfb])
    · exact Or.inl (by
        rw [hcyc, execFamilies_11 rnd t (by rw [htop]; omega), tickTimers_frameBuffer,
          handleOpcodeBxxx_frameBuffer, htfb])
    · exact Or.inl (by
        rw [hcyc, execFamilies_12 rnd t (by rw [htop]; omega), tickTimers_frameBuffer,
          handleOpcodeCxxx_frameBuffer, htfb])
    · refine Or.inr (Or.inr ⟨by omega, ?_⟩)
      intro i
      rw [hcyc, execFamilies_13 rnd t (by rw [htop]; omega), tickTimers_frameBuffer,
        handleOpcodeDxxx_frameBuffer]
      exact drawRows_cells t.memory t.indexRegister _ _ _ 0 _ s.frameBuffer
        (fun j => Or.inl rfl) i
    · exact Or.inl (by
        rw [hcyc, execFamilies_14 rnd t (by rw [htop]; omega), tickTimers_frameBuffer,
          handleOpcodeExxx_frameBuffer, htfb])
    · exact Or.inl (by
        rw [hcyc, execFamilies_15 rnd t (by rw [htop]; omega), tickTimers_frameBuffer,
          handleOpcodeFxxx_frameBuffer, htfb])

theorem setMemory_frameBuffer (s : Chip8) (a v : Nat) :
    (setMemory s a v).frameBuffer = s.frameBuffer := by
  simp only [setMemory]; split_ifs <;> rfl

theorem setProgramCounter_frameBuffer (s : Chip8) (a : Nat) :
    (setProgramCounter s a).frameBuffer = s.frameBuffer := by
  simp only [setProgramCounter]; split_ifs <;> rfl

theorem setStack_frameBuffer (s : Chip8) (i a : Nat) :
    (setStack s i a).frameBuffer = s.frameBuffer := by
  simp only [setStack]; split_ifs <;> rfl

theorem setStackPointer_frameBuffer (s : Chip8) (p : Nat) :
    (setStackPointer s p).frameBuffer = s.frameBuffer := by
  simp only [setStackPointer]; split_ifs <;> rfl

theorem setRegisterAt_frameBuffer (s : Chip8) (r v : Nat) :
    (setRegisterAt s r v).frameBuffer = s.frameBuffer := by
  simp only [setRegisterAt]; split_ifs <;> rfl

theorem setKeyState_frameBuffer (s : Chip8) (k : Nat) (b : Bool) :
    (setKeyState s k b).frameBuffer = s.frameBuffer := by
  simp only [setKeyState]; split_ifs <;> rfl

theorem setDelayTimer_frameBuffer (s : Chip8) (v : Nat) :
    (setDelayTimer s v).frameBuffer = s.frameBuffer := rfl

theorem setDrawFlag_frameBuffer (s : Chip8) (b : Bool) :
    (setDrawFlag s b).frameBuffer = s.frameBuffer := rfl

theorem setIndexRegister_frameBuffer (s : Chip8) (v : Nat) :
    (setIndexRegister s v).frameBuffer = s.frameBuffer := rfl

theorem xor_one_le (a : Nat) (h : a ≤ 1) : Nat.xor a 1 ≤ 1 := by
  interval_cases a <;> decide

/-- One step keeps every display cell in 0..1. -/
theorem emulateCycle_fb_le (rnd : Nat) (s : Chip8) (h : ∀ i, s.frameBuffer i ≤ 1) :
    ∀ i, (emulateCycle rnd s).frameBuffer i ≤ 1 := by
  intro i
  rcases emulateCycle_frameBuffer_shape rnd s with hsh | ⟨_, hsh⟩ | ⟨_, hsh⟩
  · rw [hsh]
    exact h i
  · rw [hsh]
    exact Nat.zero_le 1
  · rcases hsh i with hc | hc
    · rw [hc]
      exact h i
    · rw [hc]
      exact xor_one_le _ (h i)

/-- Every public operation except the raw pixel accessor keeps the display
binary. -/
theorem applyOp_fb_le (s : Chip8) (o : Op) (h : ∀ i, s.frameBuffer i ≤ 1)
    (ho : ∀ x y v, o ≠ Op.wPixel x y v) :
    ∀ i, (applyOp s o).frameBuffer i ≤ 1 := by
  cases o with
  | step rnd => exact emulateCycle_fb_le rnd s h
  | wMem a v =>
      intro i
      show (setMemory s a v).frameBuffer i ≤ 1
      rw [setMemory_frameBuffer]
      exact h i
  | wPC a =>
      intro i
      show (setProgramCounter s a).frameBuffer i ≤ 1
      rw [setProgramCounter_frameBuffer]
      exact h i
  | wStack j a =>
      intro i
      show (setStack s j a).frameBuffer i ≤ 1
      rw [setStack_frameBuffer]
      exact h i
  | wSP p =>
      intro i
      show (setStackPointer s p).frameBuffer i ≤ 1
      rw [setStackPointer_frameBuffer]
      exact h i
  | wReg r v =>
      intro i
      show (setRegisterAt s r v).frameBuffer i ≤ 1
      rw [setRegisterAt_frameBuffer]
      exact h i
  | wDelay v =>
      intro i
      show (setDelayTimer s v).frameBuffer i ≤ 1
      rw [setDelayTimer_frameBuffer]
      exact h i
  | wDraw b =>
      intro i
      show (setDrawFlag s b).frameBuffer i ≤ 1
      rw [setDrawFlag_frameBuffer]
      exact h i
  | wIndex v =>
      intro i
      show (setIndexRegister s v).frameBuffer i ≤ 1
      rw [setIndexRegister_frameBuffer]
      exact h i
  | wKey k b =>
      intro i
      show (setKeyState s k b).frameBuffer i ≤ 1
      rw [setKeyState_frameBuffer]
      exact h i
  | wPixel x y v => exact absurd rfl (ho x y v)

theorem foldl_applyOp_fb_le :
    ∀ (ops : List Op) (s : Chip8), (∀ i, s.frameBuffer i ≤ 1) → noPixelWrites ops →
      ∀ i, (ops.foldl applyOp s).frameBuffer i ≤ 1
  | [], _, h, _ => h
  | o :: ops, s, h, hops => by
      rw [List.foldl_cons]
      exact foldl_applyOp_fb_le ops (applyOp s o)
        (applyOp_fb_le s o h (fun x y v => hops o (List.mem_cons_self o ops) x y v))
        (fun o' ho' x y v => hops o' (List.mem_cons_of_mem o ho') x y v)

/-- Claim C9 (amended): in every state reachable from reset by public
operations OTHER than the raw `setPixel` accessor (steps with any random
bytes, accessor writes, key writes), every display cell holds 0 or 1; a
step mutates the display only when the fetched instruction is a clear-screen
(family 0, low nibble 0) or a draw (family 0xD); and per cell a step either
leaves the value, clears it to 0, or XORs it with 1.  (The public `setPixel`
accessor can store an arbitrary byte directly into the display, so the
claim as stated — over ALL public operations — fails; see the
counterexample.) -/
theorem display_binary_invariant_and_mutation :
    (∀ (ops : List Op), noPixelWrites ops → ∀ i, (runOps ops).frameBuffer i ≤ 1) ∧
    (∀ (rnd : Nat) (s : Chip8),
      (emulateCycle rnd s).frameBuffer = s.frameBuffer ∨
      (fetchWord s / 4096 % 16 = 0 ∧ fetchWord s % 16 = 0) ∨
      fetchWord s / 4096 % 16 = 13) ∧
    (∀ (rnd : Nat) (s : Chip8) (i : Nat),
      (emulateCycle rnd s).frameBuffer i = s.frameBuffer i ∨
      (emulateCycle rnd s).frameBuffer i = 0 ∨
      (emulateCycle rnd s).frameBuffer i = Nat.xor (s.frameBuffer i) 1) := by
  refine ⟨?_, ?_, ?_⟩
  · intro ops hops i
    exact foldl_applyOp_fb_le ops init (fun j => Nat.zero_le 1) hops i
  · intro rnd s
    rcases emulateCycle_frameBuffer_shape rnd s with hsh | ⟨hf, _⟩ | ⟨hf, _⟩
    · exact Or.inl hsh
    · exact Or.inr (Or.inl hf)
    · exact Or.inr (Or.inr hf)
  · intro rnd s i
    rcases emulateCycle_frameBuffer_shape rnd s with hsh | ⟨_, hsh⟩ | ⟨_, hsh⟩
    · exact Or.inl (congrFun hsh i)
    · exact Or.inr (Or.inl (by rw [hsh]))
    · rcases hsh i with hc | hc
      · exact Or.inl hc
      · exact Or.inr (Or.inr hc)

/-- Witness for the display invariant: one clear-screen step from reset
keeps cell 0 in range. -/
theorem display_binary_invariant_and_mutation_witness :
    (runOps [Op.step 0]).frameBuffer 0 ≤ 1 :=
  display_binary_invariant_and_mutation.1 [Op.step 0]
    (fun o ho x y v h => by
      rw [List.mem_singleton] at ho
      subst ho
      exact Op.noConfusion h) 0

/-- Counterexample to claim C9 as stated: the public accessor `setPixel` is
itself a display mutation outside clear-screen/draw, and it stores an
arbitrary byte — one `setPixel(0, 0, 5)` from reset puts 5 in cell 0,
violating "every cell holds 0 or 1". -/
theorem setPixel_breaks_binary_display_counterexample :
    (runOps [Op.wPixel 0 0 5]).frameBuffer 0 = 5 ∧
    ¬ (runOps [Op.wPixel 0 0 5]).frameBuffer 0 ≤ 1 := by
  refine ⟨by decide, by decide⟩

end Chip8
